/-
Verification of the pairing and deduplication engine of its-live-monitoring.

The Python sources under `its_live_monitoring/src/` (main.py, landsat.py,
sentinel2.py, sentinel1.py) are shallowly embedded below: pure functions
become Lean functions, calls to the external catalog / job store / object
store collaborators take the collaborator state (a list of items, jobs or
keys) as an explicit argument, and code paths that raise become `Except`.
Timestamps are modelled as integer seconds since the Unix epoch; coordinate
floats are modelled as sign-magnitude rationals so that the IEEE sign bit of
negative zero is representable; cloud-cover percentages and geographic
bounds are rationals.
-/
import Mathlib

deriving instance DecidableEq for Except

namespace ItsLive

/-! ## Basic helpers: strings, lists and integer timestamps -/

/-- Lexicographic (code-point) order on character lists, as Python compares
strings. -/
def charListLe : List Char → List Char → Bool
  | [], _ => true
  | _ :: _, [] => false
  | a :: as, b :: bs =>
    if a < b then true
    else if b < a then false
    else charListLe as bs

/-- Python string comparison `a <= b`. -/
def pyStrLe (a b : String) : Bool := charListLe a.data b.data

/-- Python tuple comparison `a <= b` for tuples of strings (lexicographic on
the elements). -/
def pyListLe : List String → List String → Bool
  | [], _ => true
  | _ :: _, [] => false
  | x :: xs, y :: ys => if x = y then pyListLe xs ys else pyStrLe x y

/-- Python `a.startswith(b)`. -/
def pyStartsWith (a b : String) : Bool := b.data.isPrefixOf a.data

/-- Python `a.endswith(b)`. -/
def pyEndsWith (a b : String) : Bool := b.data.isSuffixOf a.data

/-- Python `s.removesuffix(suf)`. -/
def pyRemoveSuffix (s suf : String) : String :=
  if pyEndsWith s suf then ⟨s.data.take (s.data.length - suf.data.length)⟩ else s

/-- Split a character list at every occurrence of the separator character. -/
def splitCharsOn (sep : Char) : List Char → List (List Char)
  | [] => [[]]
  | c :: cs =>
    let rest := splitCharsOn sep cs
    if c = sep then [] :: rest
    else match rest with
      | [] => [[c]]
      | r :: rs => (c :: r) :: rs

/-- Python `s.split(sep)` for a single-character separator. -/
def pySplit (s : String) (sep : Char) : List String :=
  (splitCharsOn sep s.data).map (fun cs => ⟨cs⟩)

/-- `xs.unique()` in pandas: deduplicate keeping the first occurrence of each
value, preserving order. -/
def uniqueFirst {α : Type} [DecidableEq α] (l : List α) : List α :=
  l.foldl (fun acc x => if x ∈ acc then acc else acc ++ [x]) []

/-- Minimum of a list of integers, as `Series.min()` over a non-empty
timestamp column; the default is only reached on an empty list. -/
def listMinD (l : List ℤ) (d : ℤ) : ℤ :=
  match l with
  | [] => d
  | x :: xs => xs.foldl min x

/-- Absolute value of a rational, by case split so that the kernel can
evaluate it on concrete inputs (equal to `|q|`, see `pyAbs_eq_abs`). -/
def pyAbs (q : ℚ) : ℚ := if q < 0 then -q else q

/-- `⌊q / 10⌋` as kernel-evaluable integer division (see
`ratFloorDiv10_eq`). -/
def ratFloorDiv10 (q : ℚ) : ℤ := q.num.fdiv (10 * q.den)

/-- `⌈(b - a) / 10⌉` as kernel-evaluable integer division (see
`arangeCount_eq`): the number of points of `np.arange(a, b, 10)`. -/
def arangeCount (a b : ℚ) : ℤ :=
  -((a.num * b.den - b.num * a.den).fdiv (10 * (a.den * b.den)))

/-- `a + 10 * i` as a kernel-evaluable rational (see `qAddMul10_eq`). -/
def qAddMul10 (a : ℚ) (i : ℕ) : ℚ := mkRat (a.num + 10 * i * a.den) a.den

/-- Two-digit zero-padded decimal rendering (`f-string {n:02d}`). -/
def pad2 (n : ℕ) : String :=
  if n < 10 then "0" ++ toString n else toString n

/-- Three-digit zero-padded decimal rendering (`f-string {n:03d}`). -/
def pad3 (n : ℕ) : String :=
  if n < 10 then "00" ++ toString n
  else if n < 100 then "0" ++ toString n
  else toString n

/-! ## Region Tiler (`main.py`: `point_to_region`, `regions_from_bounds`) -/

/-- A Python float in sign-magnitude form: `sign` is the IEEE sign bit
(`np.signbit`), `mag` the absolute value.  This keeps `-0.0` (`⟨true, 0⟩`)
distinct from `0.0` (`⟨false, 0⟩`). -/
structure PyFloat where
  sign : Bool
  mag : ℚ
deriving DecidableEq, Repr

/-- Convert an ordinary rational value to a `PyFloat`; arithmetic never
produces a negative zero here, so the sign bit is just `q < 0`. -/
def PyFloat.ofRat (q : ℚ) : PyFloat := ⟨decide (q < 0), pyAbs q⟩

/-- `main.point_to_region(lat, lon)`: bucket a point into the 10°×10° grid.
`int(np.abs(np.fix(x / 10) * 10))` is, for a float of magnitude `m`, the
natural number `10 * ⌊m / 10⌋`. -/
def point_to_region (lat lon : PyFloat) : String :=
  let nwHemisphere := if lat.sign then "S" else "N"
  let ewHemisphere := if lon.sign then "W" else "E"
  let regionLat0 : ℕ := (10 * ratFloorDiv10 lat.mag).toNat
  let regionLat := if regionLat0 = 90 then 80 else regionLat0
  let regionLon0 : ℕ := (10 * ratFloorDiv10 lon.mag).toNat
  let regionLon := if 180 ≤ regionLon0 then 170 else regionLon0
  nwHemisphere ++ pad2 regionLat ++ ewHemisphere ++ pad3 regionLon

/-- `np.arange(a, b, 10)` over exact rationals: the points `a + 10 * i` for
`0 ≤ i < ⌈(b - a) / 10⌉`. -/
def arange (a b : ℚ) : List ℚ :=
  (List.range (max 0 (arangeCount a b)).toNat).map (qAddMul10 a)

/-- The region labels of every point of `np.mgrid[min_lat : max_lat + 10 :
10, min_lon : max_lon + 10 : 10]`, deduplicated, as a list in a fixed
iteration order (`qAddMul10 x 1` is `x + 10`). -/
def regionsList (minLon minLat maxLon maxLat : ℚ) : List String :=
  uniqueFirst ((arange minLat (qAddMul10 maxLat 1)).flatMap (fun la =>
    (arange minLon (qAddMul10 maxLon 1)).map (fun lo =>
      point_to_region (PyFloat.ofRat la) (PyFloat.ofRat lo))))

/-- `main.regions_from_bounds(min_lon, min_lat, max_lon, max_lat)`: the set
of region labels of every enumerated grid point. -/
def regions_from_bounds (minLon minLat maxLon maxLat : ℚ) : Finset String :=
  (regionsList minLon minLat maxLon maxLat).toFinset

/-! Specification-side description of the grid bucket, written from the
spec: magnitude truncated toward zero to the nearest lower multiple of 10,
then clamped (latitude 90 to the 80 bin, longitude ≥ 180 to the 170 bin). -/

/-- Modelled from the spec: the bucket for a coordinate magnitude `m` is
`|m|` truncated toward zero to the nearest lower multiple of 10, clamped to
the top bin `clamp`. -/
def regionBucketSpec (m : ℚ) (clamp : ℕ) : ℕ :=
  min ((10 * ⌊m / 10⌋).toNat) clamp

/-- Decomposition of a region label into its four fields, used to state that
the label format is `{N|S}{2-digit}{E|W}{3-digit}`. -/
def regionLabelSpec (latSign : Bool) (latBucket : ℕ) (lonSign : Bool) (lonBucket : ℕ) : String :=
  (if latSign then "S" else "N") ++ pad2 latBucket ++
    (if lonSign then "W" else "E") ++ pad3 lonBucket

/-! ## Published-product lookup (`main.py`: `get_key`) -/

/-- Render a Python tuple of strings as an f-string interpolates it, for
example `("a",) ↦ "('a',)"`; used where `deduplicate_s3_pairs` passes the
tuple-valued `reference`/`secondary` cells into `get_key`. -/
def tupleRepr (l : List String) : String :=
  let rec inner : List String → String
    | [] => ""
    | [x] => "'" ++ x ++ "'"
    | x :: xs => "'" ++ x ++ "', " ++ inner xs
  match l with
  | [x] => "('" ++ x ++ "',)"
  | xs => "(" ++ inner xs ++ ")"

/-- `main.get_key(tile_prefixes, reference, secondary)` generalised over the
type of the two scene cells (the function is written for strings but is also
invoked on tuple-valued cells): sort the pair with Python comparison `le`,
build the search key `tp/{earliest}_X_{latest}`, and return the first key of
the bucket `store` under any of the listed path stems that matches it and
ends in `.nc`. -/
def get_key {α : Type} (le : α → α → Bool) (render : α → String)
    (store : List String) (tileStems : List String) (reference secondary : α) :
    Option String :=
  let sorted := if le reference secondary then (reference, secondary) else (secondary, reference)
  tileStems.findSome? (fun tp =>
    let searchKey := tp ++ "/" ++ render sorted.1 ++ "_X_" ++ render sorted.2
    (store.filter (fun k => pyStartsWith k searchKey)).find?
      (fun k => pyEndsWith k ".nc"))

/-! ## Landsat (`landsat.py`) -/

/-- A geographic bounding box (the model of a scene footprint / `total_bounds`). -/
structure Bounds where
  minLon : ℚ
  minLat : ℚ
  maxLon : ℚ
  maxLat : ℚ
deriving DecidableEq, Repr

def LANDSAT_COLLECTION_NAME : String := "landsat-c2l1"

def LANDSAT_MAX_PAIR_SEPARATION_IN_DAYS : ℤ := 544

def LANDSAT_MAX_CLOUD_COVER_PERCENT : ℚ := 60

/-- The STAC item of a Landsat scene: the fields of `item.properties` that the
qualification chain and pair search read.  `cloud_cover_land` is `none` when
the `landsat:cloud_cover_land` property is absent (`properties.get` default
`-1`); `datetime` is epoch seconds. -/
structure LandsatItem where
  id : String
  collection_id : String
  instruments : List String
  collection_category : String
  wrs_path : String
  wrs_row : String
  cloud_cover_land : Option ℚ
  off_nadir : ℚ
  datetime : ℤ
  geometry : Bounds
deriving DecidableEq, Repr

/-- `landsat.qualifies_for_landsat_processing(item, max_cloud_cover)`.  The
land-ice tile set (`landsat_tiles_to_process.json`, configuration data loaded
at process start) is the explicit argument `tiles`. -/
def qualifies_for_landsat_processing (tiles : List String) (item : LandsatItem)
    (max_cloud_cover : ℚ) : Bool :=
  if item.collection_id ≠ LANDSAT_COLLECTION_NAME then false
  else if "OLI" ∉ item.instruments then false
  else if item.collection_category ∉ ["T1", "T2"] then false
  else if item.wrs_path ++ item.wrs_row ∉ tiles then false
  else if item.cloud_cover_land.getD (-1) < 0 then false
  else if max_cloud_cover < item.cloud_cover_land.getD (-1) then false
  else true

/-- The first four checks of `qualifies_for_landsat_processing` (everything
but the two cloud-cover checks), used to state the cloud-cover boundary
property. -/
def landsat_checks_except_cloud (tiles : List String) (item : LandsatItem) : Bool :=
  if item.collection_id ≠ LANDSAT_COLLECTION_NAME then false
  else if "OLI" ∉ item.instruments then false
  else if item.collection_category ∉ ["T1", "T2"] then false
  else if item.wrs_path ++ item.wrs_row ∉ tiles then false
  else true

/-- The STAC catalog query of `get_landsat_pairs_for_reference_scene`: same
collection, same WRS path and row, matching off-nadir class, acquired within
`[ref - max_pair_separation, ref - 1 second]` (the catalog is the explicit
argument `catalog`; `maxSep` is in seconds). -/
def landsat_catalog_search (catalog : List LandsatItem) (reference : LandsatItem)
    (maxSep : ℤ) : List LandsatItem :=
  catalog.filter (fun item =>
    item.collection_id == reference.collection_id &&
    item.wrs_path == reference.wrs_path &&
    item.wrs_row == reference.wrs_row &&
    (if 0 < reference.off_nadir then decide (0 < item.off_nadir) else item.off_nadir == 0) &&
    decide (reference.datetime - maxSep ≤ item.datetime) &&
    decide (item.datetime ≤ reference.datetime - 1))

/-- A row of the pair table built by `get_landsat_pairs_for_reference_scene` /
`get_sentinel2_pairs_for_reference_scene`: the four pairing columns added to
each feature, plus the secondary scene metadata (its `datetime` and
geometry) that the feature row carries. -/
structure PairRow where
  reference : List String
  secondary : List String
  reference_acquisition : ℤ
  job_name : String
  datetime : ℤ
  geometry : Bounds
deriving DecidableEq, Repr

/-- A (Geo)DataFrame of candidate pairs: its column names and its rows. -/
structure PairsFrame where
  columns : List String
  rows : List PairRow
deriving DecidableEq, Repr

/-- The modelled columns of a non-empty pair table (the real frame also
carries every other STAC property of the secondary scene). -/
def pairFrameColumns : List String :=
  ["reference", "secondary", "reference_acquisition", "job_name", "datetime", "geometry"]

/-- `landsat.get_landsat_pairs_for_reference_scene(reference)`: search the
catalog, re-qualify every returned item, and emit one pair per surviving
secondary; with zero surviving secondaries the code returns
`gpd.GeoDataFrame({'reference': [], 'secondary': []})`. -/
def get_landsat_pairs_for_reference_scene (tiles : List String) (catalog : List LandsatItem)
    (reference : LandsatItem) (maxSep : ℤ) (max_cloud_cover : ℚ) : PairsFrame :=
  let items := (landsat_catalog_search catalog reference maxSep).filter
    (fun item => qualifies_for_landsat_processing tiles item max_cloud_cover)
  if items.isEmpty then ⟨["reference", "secondary"], []⟩
  else
    ⟨pairFrameColumns,
      items.map (fun item =>
        ⟨[reference.id], [item.id], reference.datetime, reference.id,
          item.datetime, item.geometry⟩)⟩

/-! ## Sentinel-2 (`sentinel2.py`) -/

def SENTINEL2_COLLECTION_NAME : String := "sentinel-2-l1c"

def SENTINEL2_MAX_PAIR_SEPARATION_IN_DAYS : ℤ := 544

def SENTINEL2_MIN_PAIR_SEPARATION_IN_DAYS : ℤ := 5

def SENTINEL2_MAX_CLOUD_COVER_PERCENT : ℚ := 70

def SENTINEL2_MIN_DATA_COVERAGE : ℚ := 70

/-- The STAC item of a Sentinel-2 scene.  `data_coverage` is the value the
code fetches from the per-tile metadata side channel
(`get_data_coverage_for_item`); `cloud_cover` is `none` when the
`eo:cloud_cover` property is absent. -/
structure Sentinel2Item where
  collection_id : String
  product_uri : String
  product_type : String
  instruments : List String
  grid_code : String
  cloud_cover : Option ℚ
  data_coverage : ℚ
  datetime : ℤ
  geometry : Bounds
deriving DecidableEq, Repr

/-- `sentinel2.is_new_scene(scene_name)`: false exactly when the processing
baseline token (4th underscore-separated field) is the reprocessing-campaign
value `N0500`. -/
def is_new_scene (scene_name : String) : Bool :=
  ¬ ((pySplit scene_name '_').getD 3 "" = "N0500")

/-- `sentinel2.qualifies_for_sentinel2_processing(item, relative_orbit,
max_cloud_cover)`; the land-ice tile set is the explicit argument `tiles`. -/
def qualifies_for_sentinel2_processing (tiles : List String) (item : Sentinel2Item)
    (relative_orbit : Option String) (max_cloud_cover : ℚ) : Bool :=
  let itemSceneId := pyRemoveSuffix item.product_uri ".SAFE"
  if (match relative_orbit with
      | some orbit => decide ((pySplit itemSceneId '_').getD 4 "" ≠ orbit)
      | none => false) then false
  else if item.collection_id ≠ SENTINEL2_COLLECTION_NAME then false
  else if ¬ is_new_scene itemSceneId then false
  else if ¬ pyEndsWith item.product_type "1C" then false
  else if "msi" ∉ item.instruments then false
  else if item.grid_code ∉ tiles then false
  else if item.cloud_cover.getD (-1) < 0 then false
  else if max_cloud_cover < item.cloud_cover.getD (-1) then false
  else if item.data_coverage ≤ SENTINEL2_MIN_DATA_COVERAGE then false
  else true

/-- All checks of `qualifies_for_sentinel2_processing` except the two
cloud-cover checks, used to state the cloud-cover boundary property. -/
def sentinel2_checks_except_cloud (tiles : List String) (item : Sentinel2Item)
    (relative_orbit : Option String) : Bool :=
  let itemSceneId := pyRemoveSuffix item.product_uri ".SAFE"
  if (match relative_orbit with
      | some orbit => decide ((pySplit itemSceneId '_').getD 4 "" ≠ orbit)
      | none => false) then false
  else if item.collection_id ≠ SENTINEL2_COLLECTION_NAME then false
  else if ¬ is_new_scene itemSceneId then false
  else if ¬ pyEndsWith item.product_type "1C" then false
  else if "msi" ∉ item.instruments then false
  else if item.grid_code ∉ tiles then false
  else if item.data_coverage ≤ SENTINEL2_MIN_DATA_COVERAGE then false
  else true

/-- The STAC catalog query of `get_sentinel2_pairs_for_reference_scene`:
same collection, same MGRS grid code, catalog-side cloud-cover pre-filter,
acquired within `[ref - max_pair_separation, ref - min_pair_separation]`
(`maxSep`/`minSep` in seconds). -/
def sentinel2_catalog_search (catalog : List Sentinel2Item) (reference : Sentinel2Item)
    (maxSep minSep : ℤ) (max_cloud_cover : ℚ) : List Sentinel2Item :=
  catalog.filter (fun item =>
    item.collection_id == reference.collection_id &&
    item.grid_code == reference.grid_code &&
    (match item.cloud_cover with
     | some c => decide (c ≤ max_cloud_cover)
     | none => false) &&
    decide (reference.datetime - maxSep ≤ item.datetime) &&
    decide (item.datetime ≤ reference.datetime - minSep))

/-- `sentinel2.get_sentinel2_pairs_for_reference_scene(reference)`: search
the catalog, re-qualify every returned item against the reference relative
orbit, and emit one pair per surviving secondary; with zero surviving
secondaries the code returns a frame with the four (empty) pairing
columns. -/
def get_sentinel2_pairs_for_reference_scene (tiles : List String)
    (catalog : List Sentinel2Item) (reference : Sentinel2Item)
    (maxSep minSep : ℤ) (max_cloud_cover : ℚ) : PairsFrame :=
  let referenceSceneId := pyRemoveSuffix reference.product_uri ".SAFE"
  let referenceOrbit := (pySplit referenceSceneId '_').getD 4 ""
  let items := (sentinel2_catalog_search catalog reference maxSep minSep max_cloud_cover).filter
    (fun item => qualifies_for_sentinel2_processing tiles item (some referenceOrbit) max_cloud_cover)
  if items.isEmpty then
    ⟨["reference", "reference_acquisition", "secondary", "job_name"], []⟩
  else
    ⟨pairFrameColumns,
      items.map (fun item =>
        ⟨[referenceSceneId], [pyRemoveSuffix item.product_uri ".SAFE"], reference.datetime,
          referenceSceneId, item.datetime, item.geometry⟩)⟩

/-! ## Sentinel-1 Frame Assembler (`sentinel1.py`) -/

def SENTINEL1_MAX_PAIR_SEPARATION_IN_DAYS : ℤ := 12

/-- A Sentinel-1 burst product as returned by the CMR catalog client: the
properties that frame assembly reads.  `startTime` is epoch seconds. -/
structure BurstProduct where
  sceneName : String
  fullBurstID : String
  polarization : String
  startTime : ℤ
deriving DecidableEq, Repr

/-- Newest-first order on burst products.  The catalog client returns each
stack ordered newest first (`get_frame_stacks` reads the most recent product
at `stack[0]`, and the stack fixtures of the test suite are built newest
first). -/
def newestFirst (p q : BurstProduct) : Prop := q.startTime ≤ p.startTime

instance : DecidableRel newestFirst := fun _ _ => Int.decLe _ _

instance : IsTotal BurstProduct newestFirst := ⟨fun a b => le_total b.startTime a.startTime⟩

instance : IsTrans BurstProduct newestFirst := ⟨fun _ _ _ h1 h2 => le_trans h2 h1⟩

/-- `asf.search(fullBurstID=burst_id, start=start, end=stop,
polarization=polarization)` against an explicit catalog: the matching burst
products within the closed time window, newest first. -/
def asf_search (catalog : List BurstProduct) (burstId : String) (start stop : ℤ)
    (pol : String) : List BurstProduct :=
  List.insertionSort newestFirst
    (catalog.filter (fun p =>
      p.fullBurstID == burstId && p.polarization == pol &&
      decide (start ≤ p.startTime) && decide (p.startTime ≤ stop)))

/-- One row of the concatenated frame-stack table: a burst product tagged
with its parent `frame_id` column. -/
structure StackRow where
  frame_id : ℕ
  product : BurstProduct
deriving DecidableEq, Repr

/-- The per-burst-id part of the `get_frame_stacks` loop: run the stack
search and raise (`ValueError`) if the stack is empty, if its most recent
product is not within the 3-minute (180 s) tolerance of the reference time,
or if it has fewer than 2 entries. -/
def burst_stack_checked (catalog : List BurstProduct) (refDate : ℤ) (pol : String)
    (start stop : ℤ) (burstId refBurstId : String) : Except String (List BurstProduct) :=
  match asf_search catalog burstId start stop pol with
  | [] =>
    .error ("No bursts found in " ++ burstId ++ " stack for the OPERA frame that contains "
      ++ refBurstId ++ ".")
  | s0 :: rest =>
    if ¬ (refDate - 180 < s0.startTime) then
      .error ("No reference " ++ burstId ++ " burst product available for the OPERA frame "
        ++ "that contains " ++ refBurstId ++ ".")
    else if (s0 :: rest).length < 2 then
      .error ("No secondary " ++ burstId ++ " burst products available for the OPERA frame "
        ++ "that contains " ++ refBurstId ++ ".")
    else .ok (s0 :: rest)

/-- The per-frame part of the `get_frame_stacks` loop: stack every member
burst id of the frame and concatenate, tagging rows with the frame id
(`pd.concat` of an empty list raises). -/
def frame_stack_rows (frameBursts : ℕ → List String) (catalog : List BurstProduct)
    (refDate : ℤ) (pol : String) (start stop : ℤ) (refBurstId : String) (frameId : ℕ) :
    Except String (List StackRow) :=
  if (frameBursts frameId).isEmpty then .error "No objects to concatenate"
  else do
    let stackList ← (frameBursts frameId).mapM
      (fun b => burst_stack_checked catalog refDate pol start stop b refBurstId)
    Except.ok (stackList.flatten.map (fun p => ⟨frameId, p⟩))

/-- `sentinel1.get_frame_stacks(reference, max_pair_separation)`.  The two
fixed lookup tables (`opera_frame_to_burst_ids.json` and
`burst_id_to_opera_frame_ids.json`, configuration data loaded at process
start) are the explicit arguments `frameBursts` and `burstFrames`; `maxSep`
is in days, the search window is
`[ref - maxSep days - 3 min, ref + 3 min]`. -/
def get_frame_stacks (frameBursts : ℕ → List String) (burstFrames : String → List ℕ)
    (catalog : List BurstProduct) (reference : BurstProduct) (maxSep : ℤ) :
    Except String (List StackRow) :=
  let refBurstId := reference.fullBurstID
  let refDate := reference.startTime
  let start := refDate - (maxSep * 86400 + 180)
  let stop := refDate + 180
  let pol := (pySplit reference.sceneName '_').getD 4 ""
  let frameIds := burstFrames refBurstId
  if frameIds.isEmpty then .error "No objects to concatenate"
  else do
    let stackList ← frameIds.mapM
      (frame_stack_rows frameBursts catalog refDate pol start stop refBurstId)
    Except.ok stackList.flatten

/-- The three incompleteness conditions of the spec for one member burst id:
the catalog search returns zero results, or no returned result lands within
the 3-minute tolerance of the reference time (every result is at least 3
minutes older), or the stack has fewer than 2 entries. -/
def stack_incomplete (catalog : List BurstProduct) (reference : BurstProduct)
    (maxSep : ℤ) (burstId : String) : Bool :=
  let stack := asf_search catalog burstId (reference.startTime - (maxSep * 86400 + 180))
    (reference.startTime + 180) ((pySplit reference.sceneName '_').getD 4 "")
  stack.isEmpty || stack.all (fun p => p.startTime ≤ reference.startTime - 180) ||
    stack.length < 2

/-- `sentinel1.frame_qualifies_for_sentinel1_processing(frame, frame_id)`:
the day-group qualifies when its burst ids are a subset of the frame's
expected member burst ids and the group has at least 5 entries
(`len(frame)` counts rows). -/
def frame_qualifies_for_sentinel1_processing (frameBursts : ℕ → List String)
    (frame : List BurstProduct) (frameId : ℕ) : Bool :=
  if ¬ (frame.all (fun p => (frameBursts frameId).contains p.fullBurstID)) then false
  else if frame.length < 5 then false
  else true

/-- The UTC calendar day of an epoch-second timestamp (`pd.Grouper` with
daily frequency groups by this). -/
def acqDay (t : ℤ) : ℤ := t.fdiv 86400

/-- `groupby(pd.Grouper(key='startTime', freq='D', sort=True))`: the rows of
one frame grouped by acquisition day, days sorted ascending, row order
preserved within each group. -/
def dayGroups (rows : List BurstProduct) : List (ℤ × List BurstProduct) :=
  let days := List.insertionSort (fun a b : ℤ => a ≤ b)
    (uniqueFirst (rows.map (fun p => acqDay p.startTime)))
  days.map (fun d => (d, rows.filter (fun p => acqDay p.startTime == d)))

/-- `datetime.isoformat()` of a tz-aware UTC timestamp at seconds
resolution, for example `isoUTC 60 = "1970-01-01T00:01:00+00:00"`; the
civil date is computed from the epoch day number by the standard
era-of-400-years decomposition. -/
def isoUTC (t : ℤ) : String :=
  let days := t.fdiv 86400
  let secs := (t - days * 86400).toNat
  let z := days + 719468
  let era := z.fdiv 146097
  let doe := (z - era * 146097).toNat
  let yoe := (doe - doe / 1460 + doe / 36524 - doe / 146096) / 365
  let y : ℤ := era * 400 + yoe
  let doy := doe - (365 * yoe + yoe / 4 - yoe / 100)
  let mp := (5 * doy + 2) / 153
  let d := doy - (153 * mp + 2) / 5 + 1
  let m := if mp < 10 then mp + 3 else mp - 9
  let yOut := if m ≤ 2 then y + 1 else y
  toString yOut ++ "-" ++ pad2 m ++ "-" ++ pad2 d ++ "T" ++
    pad2 (secs / 3600) ++ ":" ++ pad2 ((secs % 3600) / 60) ++ ":" ++ pad2 (secs % 60) ++ "+00:00"

/-- One row of the Sentinel-1 pair table: the scene-name tuples of the
reference and secondary day-groups, the reference acquisition time
(earliest start time of the reference group), and the job name. -/
structure S1PairRow where
  reference : List String
  reference_acquisition : ℤ
  secondary : List String
  job_name : String
deriving DecidableEq, Repr

/-- The Sentinel-1 pair table: column names and rows. -/
structure S1PairsFrame where
  columns : List String
  rows : List S1PairRow
deriving DecidableEq, Repr

/-- The per-frame body of the `get_sentinel1_pairs_for_reference_scene`
loop: group the frame rows by acquisition day, take the most recent group as
the reference (`frames[-1]`), assert it qualifies, and emit one pair per
earlier qualifying day-group with job name
`OPERA_{frame}_{ref_date.isoformat()}`. -/
def frame_pairs (frameBursts : ℕ → List String) (frameId : ℕ)
    (rows : List BurstProduct) : Except String (List S1PairRow) :=
  let frames := dayGroups rows
  match frames.getLast? with
  | none => .error "IndexError: list index out of range"
  | some refGroup =>
    let refProducts := refGroup.2
    let refDate := listMinD (refProducts.map (fun p => p.startTime)) 0
    if ¬ frame_qualifies_for_sentinel1_processing frameBursts refProducts frameId then
      .error "AssertionError"
    else
      .ok (frames.dropLast.filterMap (fun g =>
        if frame_qualifies_for_sentinel1_processing frameBursts g.2 frameId then
          some ⟨refProducts.map (fun p => p.sceneName), refDate,
                g.2.map (fun p => p.sceneName),
                "OPERA_" ++ toString frameId ++ "_" ++ isoUTC refDate⟩
        else none))

/-- `sentinel1.get_sentinel1_pairs_for_reference_scene(reference,
max_pair_separation)`: assemble the frame stacks, then run `frame_pairs` on
the rows of each frame id in first-appearance order. -/
def get_sentinel1_pairs_for_reference_scene (frameBursts : ℕ → List String)
    (burstFrames : String → List ℕ) (catalog : List BurstProduct)
    (reference : BurstProduct) (maxSep : ℤ) : Except String S1PairsFrame := do
  let df ← get_frame_stacks frameBursts burstFrames catalog reference maxSep
  let frameIds := uniqueFirst (df.map (fun r => r.frame_id))
  let pairLists ← frameIds.mapM (fun f =>
    frame_pairs frameBursts f ((df.filter (fun r => r.frame_id == f)).map (fun r => r.product)))
  .ok ⟨["reference", "reference_acquisition", "secondary", "job_name"], pairLists.flatten⟩

/-! ## Deduplicator (`main.py`: `deduplicate_hyp3_pairs`, `deduplicate_s3_pairs`) -/

/-- A HyP3 job record as stored in the job index: its queryable attributes
and the reference/secondary scene lists of its job parameters
(`get_reference_secondary_from_Job`). -/
structure JobRecord where
  status_code : String
  user_id : String
  name : String
  request_time : ℤ
  reference : List String
  secondary : List String
deriving DecidableEq, Repr

/-- `main.query_jobs_by_status_code(status_code, user, name, start)` against
an explicit job index: jobs of the given status, user and name submitted at
or after `start`. -/
def query_jobs_by_status_code (jobs : List JobRecord) (statusCode user name : String)
    (start : ℤ) : List JobRecord :=
  jobs.filter (fun j =>
    j.status_code == statusCode && j.user_id == user && j.name == name &&
    decide (start ≤ j.request_time))

/-- The drop step of `deduplicate_hyp3_pairs`: remove every pair whose
(reference, secondary) key is among the in-flight job keys. -/
def drop_in_flight (dupKeys : List (List String × List String)) (pairs : List PairRow) :
    List PairRow :=
  pairs.filter (fun p => (p.reference, p.secondary) ∉ dupKeys)

/-- `main.deduplicate_hyp3_pairs(pairs)`: query PENDING and RUNNING jobs with
the job name and reference acquisition time of the first pair
(`pairs.iloc[0]`, an `IndexError` on an empty frame) and drop the pairs
already represented. -/
def deduplicate_hyp3_pairs (jobs : List JobRecord) (user : String) (pairs : List PairRow) :
    Except String (List PairRow) :=
  match pairs with
  | [] => .error "IndexError: single positional indexer is out-of-bounds"
  | p0 :: _ =>
    let pending := query_jobs_by_status_code jobs "PENDING" user p0.job_name
      p0.reference_acquisition
    let running := query_jobs_by_status_code jobs "RUNNING" user p0.job_name
      p0.reference_acquisition
    let dup := (pending ++ running).map (fun j => (j.reference, j.secondary))
    .ok (drop_in_flight dup pairs)

/-- `min` of two rationals by case split (kernel-evaluable). -/
def bmin (a b : ℚ) : ℚ := if a ≤ b then a else b

/-- `max` of two rationals by case split (kernel-evaluable). -/
def bmax (a b : ℚ) : ℚ := if a ≤ b then b else a

/-- `pairs['geometry'].total_bounds`: the envelope of the pair footprints. -/
def totalBounds (b0 : Bounds) (rest : List Bounds) : Bounds :=
  rest.foldl (fun acc g =>
    ⟨bmin acc.minLon g.minLon, bmin acc.minLat g.minLat,
     bmax acc.maxLon g.maxLon, bmax acc.maxLat g.maxLat⟩) b0

/-- The drop step of `deduplicate_s3_pairs`: keep exactly the pairs for which
`get_key` finds no published product under the given tile path stems.  The
`reference`/`secondary` cells are Python tuples, so they are compared with
tuple order and rendered into the search key by f-string interpolation
(`tupleRepr`). -/
def drop_published (store : List String) (tileStems : List String) (pairs : List PairRow) :
    List PairRow :=
  pairs.filter (fun p => get_key pyListLe tupleRepr store tileStems p.reference p.secondary = none)

/-- `main.deduplicate_s3_pairs(pairs)`: choose the mission path stem from the
first reference cell (`pairs['reference'][0][0]`, a `KeyError` on an empty
frame), derive the region tile stems from the total bounds, and drop every
pair that already has a published product. -/
def deduplicate_s3_pairs (store : List String) (pairs : List PairRow) :
    Except String (List PairRow) :=
  match pairs with
  | [] => .error "KeyError: 0"
  | p0 :: rest =>
    let missionStem := if pyStartsWith (p0.reference.getD 0 "") "S2"
      then "velocity_image_pair/sentinel2/v02" else "velocity_image_pair/landsatOLI/v02"
    let bounds := totalBounds p0.geometry (rest.map (fun p => p.geometry))
    let regions := regionsList bounds.minLon bounds.minLat bounds.maxLon bounds.maxLat
    let tileStems := regions.map (fun r => missionStem ++ "/" ++ r)
    .ok (drop_published store tileStems (p0 :: rest))

/-- The Deduplicator of the orchestrator: the in-flight filter followed by
the published-product filter, as `process_scene` applies them to a non-empty
pair table. -/
def deduplicate_pairs (jobs : List JobRecord) (user : String) (store : List String)
    (pairs : List PairRow) : Except String (List PairRow) := do
  let p1 ← deduplicate_hyp3_pairs jobs user pairs
  deduplicate_s3_pairs store p1

/-! ## Concrete fixtures

Small concrete configurations, catalogs and items used to evaluate the
embedded functions at specific inputs (mirroring the shapes of the
fixtures in the repository test suite). -/

/-- Burst/frame tables with two OPERA frames: frame 1 = `a1..a5`,
frame 2 = `c1..c5`. -/
def s1cfgA : ℕ → List String := fun f =>
  if f = 1 then ["a1", "a2", "a3", "a4", "a5"]
  else if f = 2 then ["c1", "c2", "c3", "c4", "c5"] else []

/-- The reference burst `a1` belongs to frames 1 and 2. -/
def s1framesA : String → List ℕ := fun b => if b = "a1" then [1, 2] else []

/-- Build a VV burst product. -/
def mkBurst (n b : String) (t : ℤ) : BurstProduct := ⟨n, b, "VV", t⟩

/-- A reference burst product acquired at epoch second 60
(1970-01-01T00:01:00+00:00). -/
def s1refA : BurstProduct := ⟨"S1_x_x_x_VV_x", "a1", "VV", 60⟩

/-- Catalog for the two-frame scenario: frame 1 is complete on the reference
day (t = 60) and on the day 6 days earlier (t = -518340); frame 2 is
complete on the reference day but has only 4 member bursts 6 days earlier
(`c5` instead appears 12 days earlier). -/
def s1catalogA : List BurstProduct :=
  [mkBurst "A1-0" "a1" 60, mkBurst "A2-0" "a2" 60, mkBurst "A3-0" "a3" 60,
   mkBurst "A4-0" "a4" 60, mkBurst "A5-0" "a5" 60,
   mkBurst "A1-6" "a1" (-518340), mkBurst "A2-6" "a2" (-518340), mkBurst "A3-6" "a3" (-518340),
   mkBurst "A4-6" "a4" (-518340), mkBurst "A5-6" "a5" (-518340),
   mkBurst "C1-0" "c1" 60, mkBurst "C2-0" "c2" 60, mkBurst "C3-0" "c3" 60,
   mkBurst "C4-0" "c4" 60, mkBurst "C5-0" "c5" 60,
   mkBurst "C1-6" "c1" (-518340), mkBurst "C2-6" "c2" (-518340), mkBurst "C3-6" "c3" (-518340),
   mkBurst "C4-6" "c4" (-518340), mkBurst "C5-12" "c5" (-1036740)]

/-- The frame-1 rows of the two-frame catalog: the reference-day group and
the group six days earlier. -/
def s1rowsA1 : List BurstProduct :=
  [mkBurst "A1-0" "a1" 60, mkBurst "A2-0" "a2" 60, mkBurst "A3-0" "a3" 60,
   mkBurst "A4-0" "a4" 60, mkBurst "A5-0" "a5" 60,
   mkBurst "A1-6" "a1" (-518340), mkBurst "A2-6" "a2" (-518340), mkBurst "A3-6" "a3" (-518340),
   mkBurst "A4-6" "a4" (-518340), mkBurst "A5-6" "a5" (-518340)]

/-- The reference-day group of the frame-1 rows. -/
def s1refGroupA1 : List BurstProduct :=
  [mkBurst "A1-0" "a1" 60, mkBurst "A2-0" "a2" 60, mkBurst "A3-0" "a3" 60,
   mkBurst "A4-0" "a4" 60, mkBurst "A5-0" "a5" 60]

/-- Burst/frame tables with a single frame 1 = `b1..b5`. -/
def s1cfgB : ℕ → List String := fun f =>
  if f = 1 then ["b1", "b2", "b3", "b4", "b5"] else []

/-- The reference burst `b1` belongs to frame 1 only. -/
def s1framesB : String → List ℕ := fun b => if b = "b1" then [1] else []

/-- A reference burst acquired one minute after midnight UTC. -/
def s1refB : BurstProduct := ⟨"S1_x_x_x_VV_x", "b1", "VV", 60⟩

/-- A midnight-straddling pass: `b1` is acquired at t = 60 (one minute after
midnight, calendar day 0) while `b2..b5` are acquired at t = -60 (one minute
before midnight, calendar day -1), all within the 3-minute tolerance of the
reference time; every burst also has a second acquisition 6 days earlier.
The most recent calendar-day group is then `{b1}` alone. -/
def s1catalogB : List BurstProduct :=
  [mkBurst "B1-0" "b1" 60, mkBurst "B2-1" "b2" (-60), mkBurst "B3-1" "b3" (-60),
   mkBurst "B4-1" "b4" (-60), mkBurst "B5-1" "b5" (-60),
   mkBurst "B1-6" "b1" (-518340), mkBurst "B2-6" "b2" (-518340),
   mkBurst "B3-6" "b3" (-518340), mkBurst "B4-6" "b4" (-518340),
   mkBurst "B5-6" "b5" (-518340)]

/-- A day-group of 5 burst products covering only 4 distinct burst ids
(`b1` appears twice, as with reprocessed duplicate products). -/
def c2frame : List BurstProduct :=
  [mkBurst "P1" "b1" 0, mkBurst "P1R" "b1" 1, mkBurst "P2" "b2" 2,
   mkBurst "P3" "b3" 3, mkBurst "P4" "b4" 4]

/-- A shared footprint for dedup fixtures. -/
def c6bounds : Bounds := ⟨0, 0, 1, 1⟩

/-- A candidate pair with job name "A". -/
def c6p1 : PairRow := ⟨["r1"], ["s1"], 0, "A", 0, c6bounds⟩

/-- A candidate pair with job name "B" (as Sentinel-1 pairs of different
frames carry different job names). -/
def c6p2 : PairRow := ⟨["r2"], ["s2"], 0, "B", 0, c6bounds⟩

/-- An in-flight job index holding a PENDING job for each of the two pairs,
under their respective job names. -/
def c6jobs : List JobRecord :=
  [⟨"PENDING", "u", "A", 0, ["r1"], ["s1"]⟩, ⟨"PENDING", "u", "B", 0, ["r2"], ["s2"]⟩]

/-- A one-frame, one-burst configuration for exercising `get_frame_stacks`
failure. -/
def w1cfg : ℕ → List String := fun f => if f = 1 then ["b1"] else []

/-- Burst `b1` maps to frame 1. -/
def w1frames : String → List ℕ := fun b => if b = "b1" then [1] else []

/-- A sample qualifying Landsat reference item. -/
def landsatRefFx : LandsatItem :=
  ⟨"LR", "landsat-c2l1", ["OLI"], "T1", "001", "005", some 50, 0, 1000000, ⟨0, 0, 1, 1⟩⟩

/-- A sample qualifying Landsat secondary item acquired earlier. -/
def landsatSecFx : LandsatItem :=
  ⟨"LS", "landsat-c2l1", ["OLI"], "T1", "001", "005", some 50, 0, 500000, ⟨0, 0, 1, 1⟩⟩

/-- The tile set containing the fixture Landsat path+row. -/
def landsatTilesFx : List String := ["001005"]

/-- A sample qualifying Sentinel-2 reference item (relative orbit R139). -/
def s2RefFx : Sentinel2Item :=
  ⟨"sentinel-2-l1c", "S2B_MSIL1C_20240430T142739_N0510_R139_T24VUR_20240430T162937.SAFE",
   "S2MSI1C", ["msi"], "24VUR", some 50, 80, 1000000, ⟨0, 0, 1, 1⟩⟩

/-- A sample qualifying Sentinel-2 secondary item on the same orbit,
acquired earlier. -/
def s2SecFx : Sentinel2Item :=
  ⟨"sentinel-2-l1c", "S2B_MSIL1C_20240419T142739_N0510_R139_T24VUR_20240419T162937.SAFE",
   "S2MSI1C", ["msi"], "24VUR", some 50, 80, 400000, ⟨0, 0, 1, 1⟩⟩

/-- The tile set containing the fixture Sentinel-2 grid code. -/
def s2TilesFx : List String := ["24VUR"]

/-! ## Bridging lemmas for the kernel-evaluable arithmetic -/

theorem pyAbs_eq_abs (q : ℚ) : pyAbs q = |q| := by
  unfold pyAbs
  rcases lt_or_le q 0 with h | h
  · rw [if_pos h, abs_of_neg h]
  · rw [if_neg (not_lt.mpr h), abs_of_nonneg h]

theorem den_cast_ne_zero (q : ℚ) : ((q.den : ℚ)) ≠ 0 :=
  Nat.cast_ne_zero.mpr q.den_nz

theorem ratFloorDiv10_eq (q : ℚ) : ratFloorDiv10 q = ⌊q / 10⌋ := by
  have h1 : q / 10 = ((q.num : ℚ)) / (((10 * q.den : ℕ) : ℚ)) := by
    conv_lhs => rw [← Rat.num_div_den q]
    push_cast
    ring
  rw [ratFloorDiv10, h1, Rat.floor_intCast_div_natCast,
    Int.fdiv_eq_ediv _ (by positivity)]
  norm_cast

theorem qAddMul10_eq (a : ℚ) (i : ℕ) : qAddMul10 a i = a + 10 * i := by
  have hd := den_cast_ne_zero a
  have hnum : (a.num : ℚ) = a * a.den := (div_eq_iff hd).mp (Rat.num_div_den a)
  rw [qAddMul10, Rat.mkRat_eq_div, eq_comm, eq_div_iff hd]
  push_cast
  rw [hnum]
  ring

theorem arangeCount_eq (a b : ℚ) : arangeCount a b = ⌈(b - a) / 10⌉ := by
  have hda := den_cast_ne_zero a
  have hdb := den_cast_ne_zero b
  have hnum : ∀ r : ℚ, (r.num : ℚ) = r * r.den := fun r =>
    (div_eq_iff (den_cast_ne_zero r)).mp (Rat.num_div_den r)
  have h1 : (a - b) / 10 =
      ((a.num * b.den - b.num * a.den : ℤ) : ℚ) / (((10 * (a.den * b.den) : ℕ) : ℚ)) := by
    rw [eq_div_iff (by push_cast; positivity)]
    push_cast
    rw [hnum a, hnum b]
    ring
  have h2 : ⌈(b - a) / 10⌉ = -⌊(a - b) / 10⌋ := by
    rw [show (a - b) / 10 = -((b - a) / 10) by ring, Int.floor_neg, neg_neg]
  rw [arangeCount, h2, h1, Rat.floor_intCast_div_natCast,
    Int.fdiv_eq_ediv _ (by positivity)]
  norm_cast

/-! ## List helper lemmas -/

theorem mem_foldl_uniqueFirst {α : Type} [DecidableEq α] (l acc : List α) (x : α) :
    x ∈ l.foldl (fun acc x => if x ∈ acc then acc else acc ++ [x]) acc ↔ x ∈ acc ∨ x ∈ l := by
  induction l generalizing acc with
  | nil => simp
  | cons a t ih =>
    simp only [List.foldl_cons, ih, List.mem_cons]
    by_cases ha : a ∈ acc
    · rw [if_pos ha]
      constructor
      · rintro (h | h)
        · exact Or.inl h
        · exact Or.inr (Or.inr h)
      · rintro (h | h | h)
        · exact Or.inl h
        · exact Or.inl (h ▸ ha)
        · exact Or.inr h
    · rw [if_neg ha]
      simp only [List.mem_append, List.mem_singleton]
      tauto

theorem mem_uniqueFirst {α : Type} [DecidableEq α] (l : List α) (x : α) :
    x ∈ uniqueFirst l ↔ x ∈ l := by
  rw [uniqueFirst, mem_foldl_uniqueFirst]
  simp

theorem filterMap_ite {α β : Type} (p : α → Bool) (f : α → β) (l : List α) :
    (l.filterMap (fun a => if p a then some (f a) else none)) = (l.filter p).map f := by
  induction l with
  | nil => rfl
  | cons a t ih =>
    by_cases h : p a
    · simp [List.filterMap_cons, List.filter_cons, h, ih]
    · simp [List.filterMap_cons, List.filter_cons, h, ih]

theorem foldl_min_mem (t : List ℤ) : ∀ x : ℤ, t.foldl min x ∈ x :: t := by
  induction t with
  | nil => intro x; simp
  | cons y t ih =>
    intro x
    simp only [List.foldl_cons]
    rcases List.mem_cons.mp (ih (min x y)) with h | h
    · rcases min_choice x y with hm | hm
      · rw [h, hm]; simp
      · rw [h, hm]; simp
    · simp [List.mem_cons_of_mem, h]

theorem foldl_min_le (t : List ℤ) : ∀ x y : ℤ, y ∈ x :: t → t.foldl min x ≤ y := by
  induction t with
  | nil =>
    intro x y hy
    simp only [List.mem_singleton] at hy
    simp [hy]
  | cons z t ih =>
    intro x y hy
    simp only [List.foldl_cons]
    rcases List.mem_cons.mp hy with rfl | hy2
    · exact le_trans (ih (min y z) (min y z) (by simp)) (min_le_left y z)
    · rcases List.mem_cons.mp hy2 with rfl | hy3
      · exact le_trans (ih (min x y) (min x y) (by simp)) (min_le_right x y)
      · exact ih (min x z) y (List.mem_cons_of_mem _ hy3)

theorem listMinD_mem (x : ℤ) (xs : List ℤ) (d : ℤ) :
    listMinD (x :: xs) d ∈ x :: xs :=
  foldl_min_mem xs x

theorem listMinD_le (x : ℤ) (xs : List ℤ) (d : ℤ) :
    ∀ y ∈ x :: xs, listMinD (x :: xs) d ≤ y := fun y hy =>
  foldl_min_le xs x y hy

/-! ## Python string order: totality and antisymmetry -/

theorem charListLe_total (a : List Char) : ∀ b, charListLe a b = true ∨ charListLe b a = true := by
  induction a with
  | nil => intro b; left; rfl
  | cons x xs ih =>
    intro b
    cases b with
    | nil => right; rfl
    | cons y ys =>
      rcases lt_trichotomy x y with h | h | h
      · left; simp [charListLe, h]
      · subst h
        rcases ih ys with h2 | h2
        · left; simp [charListLe, lt_irrefl, h2]
        · right; simp [charListLe, lt_irrefl, h2]
      · right; simp [charListLe, h]

theorem charListLe_antisymm (a : List Char) :
    ∀ b, charListLe a b = true → charListLe b a = true → a = b := by
  induction a with
  | nil =>
    intro b _ h2
    cases b with
    | nil => rfl
    | cons y ys => exact absurd h2 (by simp [charListLe])
  | cons x xs ih =>
    intro b h1 h2
    cases b with
    | nil => exact absurd h1 (by simp [charListLe])
    | cons y ys =>
      rcases lt_trichotomy x y with h | h | h
      · rw [charListLe, if_neg (asymm h), if_pos h] at h2
        exact absurd h2 (by simp)
      · subst h
        rw [charListLe, if_neg (lt_irrefl x), if_neg (lt_irrefl x)] at h1 h2
        rw [ih ys h1 h2]
      · rw [charListLe, if_neg (asymm h), if_pos h] at h1
        exact absurd h1 (by simp)

theorem pyStrLe_total (a b : String) : pyStrLe a b = true ∨ pyStrLe b a = true :=
  charListLe_total a.data b.data

theorem pyStrLe_antisymm (a b : String) :
    pyStrLe a b = true → pyStrLe b a = true → a = b := by
  intro h1 h2
  cases a
  cases b
  exact congrArg String.mk (charListLe_antisymm _ _ h1 h2)

/-- C9.  For every reference/secondary pair of scene ids, the
published-product dedup lookup `get_key` constructs its object-store search
key from the pair sorted alphabetically by scene id, so the lookup result is
invariant under swapping reference and secondary. -/
theorem spec_C9 (store tileStems : List String) (r s : String) :
    get_key pyStrLe id store tileStems r s = get_key pyStrLe id store tileStems s r := by
  unfold get_key
  have hsorted : (if pyStrLe r s then (r, s) else (s, r)) =
      (if pyStrLe s r then (s, r) else (r, s)) := by
    by_cases h1 : pyStrLe r s = true
    · by_cases h2 : pyStrLe s r = true
      · rw [pyStrLe_antisymm r s h1 h2]
      · simp [h1, h2]
    · have h2 : pyStrLe s r = true := (pyStrLe_total r s).resolve_left h1
      simp [h1, h2]
  rw [hsorted]

/-! ## C2: frame qualification quorum -/

/-- C2 (counterexample).  A day-group of 5 burst products covering only 4
distinct member burst ids qualifies, because the code checks the row count
`len(frame)`, not the cardinality of the burst-id set; the claim, which
requires the set cardinality to be at least 5, is false on this group. -/
theorem spec_C2_counterexample :
    frame_qualifies_for_sentinel1_processing s1cfgB c2frame 1 = true ∧
    (uniqueFirst (c2frame.map (fun p => p.fullBurstID))).length = 4 ∧
    c2frame.length = 5 ∧
    (∀ p ∈ c2frame, p.fullBurstID ∈ s1cfgB 1) := by decide

/-- C2 (amended).  `frame_qualifies_for_sentinel1_processing` returns true
iff the day-group's burst ids all belong to the frame's expected member set
and the group has at least 5 rows (burst products counted with
multiplicity); in particular a day-group of exactly 4 burst products is
rejected. -/
theorem spec_C2_amended (frameBursts : ℕ → List String) (frame : List BurstProduct)
    (frameId : ℕ) :
    frame_qualifies_for_sentinel1_processing frameBursts frame frameId = true ↔
    ((∀ p ∈ frame, p.fullBurstID ∈ frameBursts frameId) ∧ 5 ≤ frame.length) := by
  unfold frame_qualifies_for_sentinel1_processing
  by_cases hA : frame.all (fun p => (frameBursts frameId).contains p.fullBurstID) = true
  · by_cases hL : frame.length < 5
    · rw [if_neg (not_not_intro hA), if_pos hL]
      simp only [Bool.false_eq_true, false_iff]
      rintro ⟨_, hlen⟩
      omega
    · rw [if_neg (not_not_intro hA), if_neg hL]
      refine ⟨fun _ => ⟨fun p hp => ?_, by omega⟩, fun _ => rfl⟩
      have hmem := List.all_eq_true.mp hA p hp
      simpa using hmem
  · rw [if_pos hA]
    simp only [Bool.false_eq_true, false_iff]
    rintro ⟨hall, _⟩
    exact hA (List.all_eq_true.mpr (fun p hp => by simpa using hall p hp))

/-! ## C6: deduplication idempotence -/

/-- C6 (counterexample).  With two candidate pairs carrying different job
names (as Sentinel-1 pairs of different frames do) and an in-flight job for
each, the first application of the Deduplicator drops only the first pair
(the job query is keyed on `pairs.iloc[0]`), and a second application drops
the survivor and then fails on the empty frame: the second application does
not return its input unchanged. -/
theorem spec_C6_counterexample :
    deduplicate_pairs c6jobs "u" [] [c6p1, c6p2] = .ok [c6p2] ∧
    deduplicate_pairs c6jobs "u" [] [c6p2] = .error "KeyError: 0" := by decide

/-- C6 (amended).  Each dedup filter is idempotent once its derived query
context is held fixed: re-applying the in-flight drop with the same
duplicate-key set, or the published-product drop with the same store and
tile path stems, leaves its own output unchanged.  (Re-deriving the context
from the shrunken output, as the code does, can drop further pairs or fail
on an empty output.) -/
theorem spec_C6_amended :
    (∀ (dupKeys : List (List String × List String)) (pairs : List PairRow),
      drop_in_flight dupKeys (drop_in_flight dupKeys pairs) = drop_in_flight dupKeys pairs) ∧
    (∀ (store tileStems : List String) (pairs : List PairRow),
      drop_published store tileStems (drop_published store tileStems pairs) =
        drop_published store tileStems pairs) := by
  constructor
  · intro dupKeys pairs
    unfold drop_in_flight
    exact List.filter_eq_self.mpr (fun a ha => (List.mem_filter.mp ha).2)
  · intro store tileStems pairs
    unfold drop_published
    exact List.filter_eq_self.mpr (fun a ha => (List.mem_filter.mp ha).2)

/-! ## C5: cloud-cover threshold monotonicity and boundary -/

theorem qualifies_landsat_iff (tiles : List String) (item : LandsatItem) (t : ℚ) :
    qualifies_for_landsat_processing tiles item t = true ↔
    (landsat_checks_except_cloud tiles item = true ∧
     0 ≤ item.cloud_cover_land.getD (-1) ∧ item.cloud_cover_land.getD (-1) ≤ t) := by
  unfold qualifies_for_landsat_processing landsat_checks_except_cloud
  split_ifs <;> simp_all

theorem qualifies_sentinel2_iff (tiles : List String) (item : Sentinel2Item)
    (relative_orbit : Option String) (t : ℚ) :
    qualifies_for_sentinel2_processing tiles item relative_orbit t = true ↔
    (sentinel2_checks_except_cloud tiles item relative_orbit = true ∧
     0 ≤ item.cloud_cover.getD (-1) ∧ item.cloud_cover.getD (-1) ≤ t) := by
  unfold qualifies_for_sentinel2_processing sentinel2_checks_except_cloud
  split_ifs <;> simp_all

/-- C5.  Both qualification predicates are monotonic in the cloud-cover
threshold, and at the boundary a scene whose cloud cover equals the
threshold qualifies exactly when every other check passes, while any scene
whose cloud cover exceeds the threshold (in particular threshold + 1) is
rejected. -/
theorem spec_C5 :
    (∀ (tiles : List String) (item : LandsatItem) (t1 t2 : ℚ), t1 ≤ t2 →
      qualifies_for_landsat_processing tiles item t1 = true →
      qualifies_for_landsat_processing tiles item t2 = true) ∧
    (∀ (tiles : List String) (item : Sentinel2Item) (orbit : Option String) (t1 t2 : ℚ),
      t1 ≤ t2 →
      qualifies_for_sentinel2_processing tiles item orbit t1 = true →
      qualifies_for_sentinel2_processing tiles item orbit t2 = true) ∧
    (∀ (tiles : List String) (item : LandsatItem) (t c : ℚ),
      item.cloud_cover_land = some c → 0 ≤ c →
      (c = t → qualifies_for_landsat_processing tiles item t =
        landsat_checks_except_cloud tiles item) ∧
      (t < c → qualifies_for_landsat_processing tiles item t = false)) ∧
    (∀ (tiles : List String) (item : Sentinel2Item) (orbit : Option String) (t c : ℚ),
      item.cloud_cover = some c → 0 ≤ c →
      (c = t → qualifies_for_sentinel2_processing tiles item orbit t =
        sentinel2_checks_except_cloud tiles item orbit) ∧
      (t < c → qualifies_for_sentinel2_processing tiles item orbit t = false)) := by
  refine ⟨?_, ?_, ?_, ?_⟩
  · intro tiles item t1 t2 h12 hq
    rw [qualifies_landsat_iff] at hq ⊢
    exact ⟨hq.1, hq.2.1, le_trans hq.2.2 h12⟩
  · intro tiles item orbit t1 t2 h12 hq
    rw [qualifies_sentinel2_iff] at hq ⊢
    exact ⟨hq.1, hq.2.1, le_trans hq.2.2 h12⟩
  · intro tiles item t c hcc hc0
    constructor
    · intro hct
      cases hB : landsat_checks_except_cloud tiles item
      · rw [← Bool.not_eq_true]
        rw [qualifies_landsat_iff]
        rintro ⟨hchecks, _⟩
        rw [hB] at hchecks
        exact absurd hchecks (by simp)
      · rw [qualifies_landsat_iff]
        exact ⟨hB, by simp [hcc]; linarith [hct ▸ hc0], by simp [hcc, hct]⟩
    · intro htc
      rw [← Bool.not_eq_true, qualifies_landsat_iff]
      rintro ⟨_, _, hle⟩
      rw [hcc] at hle
      simp only [Option.getD_some] at hle
      linarith
  · intro tiles item orbit t c hcc hc0
    constructor
    · intro hct
      cases hB : sentinel2_checks_except_cloud tiles item orbit
      · rw [← Bool.not_eq_true]
        rw [qualifies_sentinel2_iff]
        rintro ⟨hchecks, _⟩
        rw [hB] at hchecks
        exact absurd hchecks (by simp)
      · rw [qualifies_sentinel2_iff]
        exact ⟨hB, by simp [hcc]; linarith [hct ▸ hc0], by simp [hcc, hct]⟩
    · intro htc
      rw [← Bool.not_eq_true, qualifies_sentinel2_iff]
      rintro ⟨_, _, hle⟩
      rw [hcc] at hle
      simp only [Option.getD_some] at hle
      linarith

/-- C5 (witness): the boundary and monotonicity facts evaluated on the
fixture Landsat and Sentinel-2 items with cloud cover 50. -/
theorem spec_C5_witness :
    qualifies_for_landsat_processing landsatTilesFx landsatRefFx 60 = true ∧
    qualifies_for_landsat_processing landsatTilesFx landsatRefFx 50 =
      landsat_checks_except_cloud landsatTilesFx landsatRefFx ∧
    qualifies_for_landsat_processing landsatTilesFx landsatRefFx 49 = false ∧
    qualifies_for_sentinel2_processing s2TilesFx s2RefFx none 50 =
      sentinel2_checks_except_cloud s2TilesFx s2RefFx none ∧
    qualifies_for_sentinel2_processing s2TilesFx s2RefFx none 49 = false :=
  ⟨spec_C5.1 landsatTilesFx landsatRefFx 50 60 (by decide) (by decide),
   (spec_C5.2.2.1 landsatTilesFx landsatRefFx 50 50 (by decide) (by decide)).1 rfl,
   (spec_C5.2.2.1 landsatTilesFx landsatRefFx 49 50 (by decide) (by decide)).2 (by decide),
   (spec_C5.2.2.2 s2TilesFx s2RefFx none 50 50 (by decide) (by decide)).1 rfl,
   (spec_C5.2.2.2 s2TilesFx s2RefFx none 49 50 (by decide) (by decide)).2 (by decide)⟩

/-! ## C10: empty pair tables -/

/-- C10 (counterexample).  With an empty catalog the Landsat pair search
returns an empty frame whose columns are only `reference` and `secondary`:
the claim that the empty result carries `reference_acquisition` and
`job_name` as well is false for Landsat. -/
theorem spec_C10_counterexample :
    (get_landsat_pairs_for_reference_scene [] [] landsatRefFx 47001600 60).columns =
      ["reference", "secondary"] ∧
    (get_landsat_pairs_for_reference_scene [] [] landsatRefFx 47001600 60).rows = [] ∧
    "reference_acquisition" ∉
      (get_landsat_pairs_for_reference_scene [] [] landsatRefFx 47001600 60).columns ∧
    "job_name" ∉
      (get_landsat_pairs_for_reference_scene [] [] landsatRefFx 47001600 60).columns := by
  decide

/-- C10 (amended).  With zero surviving secondaries both pair searches
return an explicitly empty typed frame, not a null: Sentinel-2 with the four
pairing columns (each of which the non-empty case also carries), Landsat
with only the `reference` and `secondary` columns. -/
theorem spec_C10_amended :
    (∀ (tiles : List String) (catalog : List LandsatItem) (reference : LandsatItem)
       (maxSep : ℤ) (max_cloud_cover : ℚ),
      (landsat_catalog_search catalog reference maxSep).filter
        (fun item => qualifies_for_landsat_processing tiles item max_cloud_cover) = [] →
      get_landsat_pairs_for_reference_scene tiles catalog reference maxSep max_cloud_cover =
        ⟨["reference", "secondary"], []⟩) ∧
    (∀ (tiles : List String) (catalog : List Sentinel2Item) (reference : Sentinel2Item)
       (maxSep minSep : ℤ) (max_cloud_cover : ℚ),
      (sentinel2_catalog_search catalog reference maxSep minSep max_cloud_cover).filter
        (fun item => qualifies_for_sentinel2_processing tiles item
          (some ((pySplit (pyRemoveSuffix reference.product_uri ".SAFE") '_').getD 4 ""))
          max_cloud_cover) = [] →
      get_sentinel2_pairs_for_reference_scene tiles catalog reference maxSep minSep
          max_cloud_cover =
        ⟨["reference", "reference_acquisition", "secondary", "job_name"], []⟩) ∧
    ["reference", "reference_acquisition", "secondary", "job_name"] ⊆ pairFrameColumns := by
  refine ⟨?_, ?_, by decide⟩
  · intro tiles catalog reference maxSep max_cloud_cover hempty
    simp only [get_landsat_pairs_for_reference_scene, hempty, List.isEmpty_nil, if_true]
  · intro tiles catalog reference maxSep minSep max_cloud_cover hempty
    simp only [get_sentinel2_pairs_for_reference_scene, hempty, List.isEmpty_nil, if_true]

/-- C10 (witness): the amended statement evaluated with empty catalogs. -/
theorem spec_C10_witness :
    get_landsat_pairs_for_reference_scene [] [] landsatRefFx 47001600 60 =
      ⟨["reference", "secondary"], []⟩ ∧
    get_sentinel2_pairs_for_reference_scene [] [] s2RefFx 47001600 432000 70 =
      ⟨["reference", "reference_acquisition", "secondary", "job_name"], []⟩ :=
  ⟨spec_C10_amended.1 [] [] landsatRefFx 47001600 60 (by decide),
   spec_C10_amended.2.1 [] [] s2RefFx 47001600 432000 70 (by decide)⟩

/-! ## Day-group structure lemmas -/

theorem dropLast_map {α β : Type} (f : α → β) (l : List α) :
    (l.map f).dropLast = l.dropLast.map f := by
  induction l with
  | nil => rfl
  | cons a t ih =>
    cases t with
    | nil => rfl
    | cons b t2 => simp [List.dropLast_cons₂, ih]

theorem getLast?_map {α β : Type} (f : α → β) (l : List α) :
    (l.map f).getLast? = l.getLast?.map f := by
  induction l with
  | nil => rfl
  | cons a t ih =>
    cases t with
    | nil => rfl
    | cons b t2 => simpa using ih

theorem mem_of_getLast? {α : Type} {l : List α} {a : α} (h : l.getLast? = some a) :
    a ∈ l := by
  induction l with
  | nil => simp at h
  | cons x t ih =>
    cases t with
    | nil =>
      simp only [List.getLast?_singleton, Option.some_inj] at h
      simp [h]
    | cons y t2 =>
      rw [List.getLast?_cons_cons] at h
      exact List.mem_cons_of_mem _ (ih h)

theorem uniqueFirst_nodup {α : Type} [DecidableEq α] (l : List α) :
    (uniqueFirst l).Nodup := by
  have aux : ∀ (t acc : List α), acc.Nodup →
      (t.foldl (fun acc x => if x ∈ acc then acc else acc ++ [x]) acc).Nodup := by
    intro t
    induction t with
    | nil => intro acc h; exact h
    | cons a t2 ih =>
      intro acc hacc
      simp only [List.foldl_cons]
      by_cases ha : a ∈ acc
      · rw [if_pos ha]; exact ih acc hacc
      · rw [if_neg ha]
        refine ih _ (List.nodup_append.mpr ⟨hacc, List.nodup_singleton a, ?_⟩)
        intro x hx hxa
        simp only [List.mem_singleton] at hxa
        exact ha (hxa ▸ hx)
  exact aux l [] List.nodup_nil

theorem sorted_lt_getLast :
    ∀ (l : List ℤ), l.Sorted (· ≤ ·) → l.Nodup →
      ∀ last, l.getLast? = some last → ∀ d ∈ l.dropLast, d < last := by
  intro l
  induction l with
  | nil => intro _ _ last h; simp at h
  | cons x t ih =>
    intro hs hn last hlast d hd
    cases t with
    | nil => simp at hd
    | cons y t2 =>
      rw [List.getLast?_cons_cons] at hlast
      have hmem : last ∈ y :: t2 := mem_of_getLast? hlast
      rcases List.mem_cons.mp (by simpa [List.dropLast_cons₂] using hd) with rfl | hd2
      · have hle : d ≤ last := (List.sorted_cons.mp hs).1 last hmem
        have hne : d ≠ last := by
          intro heq
          exact (List.nodup_cons.mp hn).1 (heq ▸ hmem)
        exact lt_of_le_of_ne hle hne
      · exact ih (List.sorted_cons.mp hs).2 (List.nodup_cons.mp hn).2 last hlast d hd2

theorem acqDay_bounds (t : ℤ) :
    86400 * acqDay t ≤ t ∧ t < 86400 * acqDay t + 86400 := by
  unfold acqDay
  rw [Int.fdiv_eq_ediv _ (by norm_num)]
  omega

/-- The sorted distinct day keys underlying `dayGroups`. -/
theorem dayGroups_eq_map (rows : List BurstProduct) :
    dayGroups rows =
      (List.insertionSort (fun a b : ℤ => a ≤ b)
        (uniqueFirst (rows.map (fun p => acqDay p.startTime)))).map
        (fun d => (d, rows.filter (fun p => acqDay p.startTime == d))) := rfl

theorem dayGroups_day_sorted (rows : List BurstProduct) :
    (List.insertionSort (fun a b : ℤ => a ≤ b)
      (uniqueFirst (rows.map (fun p => acqDay p.startTime)))).Sorted (· ≤ ·) :=
  List.sorted_insertionSort _ _

theorem dayGroups_day_nodup (rows : List BurstProduct) :
    (List.insertionSort (fun a b : ℤ => a ≤ b)
      (uniqueFirst (rows.map (fun p => acqDay p.startTime)))).Nodup :=
  (List.perm_insertionSort _ _).nodup_iff.mpr (uniqueFirst_nodup _)

theorem dayGroups_mem_day (rows : List BurstProduct) (g : ℤ × List BurstProduct)
    (hg : g ∈ dayGroups rows) : ∀ p ∈ g.2, acqDay p.startTime = g.1 := by
  rw [dayGroups_eq_map] at hg
  rcases List.mem_map.mp hg with ⟨d, _, rfl⟩
  intro p hp
  have := (List.mem_filter.mp hp).2
  simpa using this

theorem dayGroups_nonempty (rows : List BurstProduct) (g : ℤ × List BurstProduct)
    (hg : g ∈ dayGroups rows) : g.2 ≠ [] := by
  rw [dayGroups_eq_map] at hg
  rcases List.mem_map.mp hg with ⟨d, hd, rfl⟩
  have hd2 : d ∈ uniqueFirst (rows.map (fun p => acqDay p.startTime)) :=
    (List.perm_insertionSort _ _).mem_iff.mp hd
  have hd3 : d ∈ rows.map (fun p => acqDay p.startTime) :=
    (mem_uniqueFirst _ _).mp hd2
  rcases List.mem_map.mp hd3 with ⟨p, hp, hpd⟩
  exact List.ne_nil_of_mem (List.mem_filter.mpr ⟨hp, by simp [hpd]⟩)

theorem dayGroups_dropLast_lt (rows : List BurstProduct) (g g0 : ℤ × List BurstProduct)
    (hg : g ∈ (dayGroups rows).dropLast) (h0 : (dayGroups rows).getLast? = some g0) :
    g.1 < g0.1 := by
  rw [dayGroups_eq_map] at hg h0
  rw [dropLast_map] at hg
  rw [getLast?_map] at h0
  rcases List.mem_map.mp hg with ⟨d, hd, rfl⟩
  cases hlast : (List.insertionSort (fun a b : ℤ => a ≤ b)
      (uniqueFirst (rows.map (fun p => acqDay p.startTime)))).getLast? with
  | none => rw [hlast] at h0; exact absurd h0 (by simp)
  | some d0 =>
    rw [hlast] at h0
    have h0x : (d0, rows.filter (fun p => acqDay p.startTime == d0)) = g0 := by
      simpa using h0
    rw [← h0x]
    exact sorted_lt_getLast _ (dayGroups_day_sorted rows) (dayGroups_day_nodup rows)
      d0 hlast d hd

/-- C4.  Every emitted CandidatePair has its reference acquisition time
strictly later than every secondary acquisition time: the Landsat search
window ends one second before the reference time; the Sentinel-2 window
ends `min_pair_separation` (positive) before it; and for Sentinel-1 every
pair row comes from an earlier day-group, all of whose burst start times
precede the reference group's earliest start time. -/
theorem spec_C4 :
    (∀ (tiles : List String) (catalog : List LandsatItem) (reference : LandsatItem)
       (maxSep : ℤ) (max_cloud_cover : ℚ) (row : PairRow),
      row ∈ (get_landsat_pairs_for_reference_scene tiles catalog reference maxSep
        max_cloud_cover).rows →
      row.datetime < row.reference_acquisition) ∧
    (∀ (tiles : List String) (catalog : List Sentinel2Item) (reference : Sentinel2Item)
       (maxSep minSep : ℤ) (max_cloud_cover : ℚ) (row : PairRow), 0 < minSep →
      row ∈ (get_sentinel2_pairs_for_reference_scene tiles catalog reference maxSep minSep
        max_cloud_cover).rows →
      row.datetime < row.reference_acquisition) ∧
    (∀ (frameBursts : ℕ → List String) (frameId : ℕ) (rows : List BurstProduct)
       (prs : List S1PairRow) (r : S1PairRow),
      frame_pairs frameBursts frameId rows = .ok prs → r ∈ prs →
      ∃ g ∈ (dayGroups rows).dropLast,
        r.secondary = g.2.map (fun p => p.sceneName) ∧
        ∀ p ∈ g.2, p.startTime < r.reference_acquisition) := by
  refine ⟨?_, ?_, ?_⟩
  · intro tiles catalog reference maxSep max_cloud_cover row hrow
    simp only [get_landsat_pairs_for_reference_scene] at hrow
    split at hrow
    · exact absurd hrow (by simp)
    · rcases List.mem_map.mp hrow with ⟨item, hitem, rfl⟩
      have hsearch := (List.mem_filter.mp hitem).1
      have hcond := (List.mem_filter.mp hsearch).2
      simp only [landsat_catalog_search] at hcond ⊢
      simp only [Bool.and_eq_true, decide_eq_true_eq] at hcond
      have := hcond.2
      omega
  · intro tiles catalog reference maxSep minSep max_cloud_cover row hminSep hrow
    simp only [get_sentinel2_pairs_for_reference_scene] at hrow
    split at hrow
    · exact absurd hrow (by simp)
    · rcases List.mem_map.mp hrow with ⟨item, hitem, rfl⟩
      have hsearch := (List.mem_filter.mp hitem).1
      have hcond := (List.mem_filter.mp hsearch).2
      simp only [sentinel2_catalog_search] at hcond ⊢
      simp only [Bool.and_eq_true, decide_eq_true_eq] at hcond
      have := hcond.2
      omega
  · intro frameBursts frameId rows prs r hok hr
    cases hlast : (dayGroups rows).getLast? with
    | none => simp [frame_pairs, hlast] at hok
    | some g0 =>
      simp only [frame_pairs, hlast] at hok
      by_cases hq : frame_qualifies_for_sentinel1_processing frameBursts g0.2 frameId = true
      · rw [if_neg (not_not_intro hq)] at hok
        have hprs := Except.ok.inj hok
        rw [← hprs, filterMap_ite] at hr
        rcases List.mem_map.mp hr with ⟨g, hgmem, hgr⟩
        have hgdrop := (List.mem_filter.mp hgmem).1
        refine ⟨g, hgdrop, by rw [← hgr], ?_⟩
        intro p hp
        have hpr : r.reference_acquisition =
            listMinD (g0.2.map (fun p => p.startTime)) 0 := by rw [← hgr]
        rw [hpr]
        have hg0mem : g0 ∈ dayGroups rows := mem_of_getLast? hlast
        have hg0ne : g0.2 ≠ [] := dayGroups_nonempty rows g0 hg0mem
        rcases List.exists_cons_of_ne_nil hg0ne with ⟨q, qs, hq0⟩
        have hminmem : listMinD (g0.2.map (fun p => p.startTime)) 0 ∈
            g0.2.map (fun p => p.startTime) := by
          rw [hq0]
          simp only [List.map_cons]
          exact listMinD_mem _ _ _
        rcases List.mem_map.mp hminmem with ⟨q0, hq0mem, hq0eq⟩
        have hq0day : acqDay q0.startTime = g0.1 := dayGroups_mem_day rows g0 hg0mem q0 hq0mem
        have hpday : acqDay p.startTime = g.1 :=
          dayGroups_mem_day rows g ((List.dropLast_sublist _).mem hgdrop) p hp
        have hdaylt : g.1 < g0.1 := dayGroups_dropLast_lt rows g g0 hgdrop hlast
        have hb1 := acqDay_bounds p.startTime
        have hb2 := acqDay_bounds q0.startTime
        rw [← hq0eq]
        omega
      · rw [if_pos hq] at hok
        exact absurd hok (by simp)

/-- C4 (witness): the three parts evaluated on concrete pair tables — a
Landsat pair, a Sentinel-2 pair, and a Sentinel-1 frame built from the
complete frame-1 rows of the two-frame fixture. -/
theorem spec_C4_witness :
    ((⟨["LR"], ["LS"], 1000000, "LR", 500000, ⟨0, 0, 1, 1⟩⟩ : PairRow).datetime <
      (⟨["LR"], ["LS"], 1000000, "LR", 500000, ⟨0, 0, 1, 1⟩⟩ : PairRow).reference_acquisition) ∧
    ((⟨["S2B_MSIL1C_20240430T142739_N0510_R139_T24VUR_20240430T162937"],
       ["S2B_MSIL1C_20240419T142739_N0510_R139_T24VUR_20240419T162937"], 1000000,
       "S2B_MSIL1C_20240430T142739_N0510_R139_T24VUR_20240430T162937", 400000,
       ⟨0, 0, 1, 1⟩⟩ : PairRow).datetime <
      (⟨["S2B_MSIL1C_20240430T142739_N0510_R139_T24VUR_20240430T162937"],
        ["S2B_MSIL1C_20240419T142739_N0510_R139_T24VUR_20240419T162937"], 1000000,
        "S2B_MSIL1C_20240430T142739_N0510_R139_T24VUR_20240430T162937", 400000,
        ⟨0, 0, 1, 1⟩⟩ : PairRow).reference_acquisition) ∧
    (∃ g ∈ (dayGroups [mkBurst "A1-0" "a1" 60, mkBurst "A2-0" "a2" 60,
        mkBurst "A3-0" "a3" 60, mkBurst "A4-0" "a4" 60, mkBurst "A5-0" "a5" 60,
        mkBurst "A1-6" "a1" (-518340), mkBurst "A2-6" "a2" (-518340),
        mkBurst "A3-6" "a3" (-518340), mkBurst "A4-6" "a4" (-518340),
        mkBurst "A5-6" "a5" (-518340)]).dropLast,
      (⟨["A1-0", "A2-0", "A3-0", "A4-0", "A5-0"], 60,
        ["A1-6", "A2-6", "A3-6", "A4-6", "A5-6"],
        "OPERA_1_1970-01-01T00:01:00+00:00"⟩ : S1PairRow).secondary =
          g.2.map (fun p => p.sceneName) ∧
      ∀ p ∈ g.2, p.startTime <
        (⟨["A1-0", "A2-0", "A3-0", "A4-0", "A5-0"], 60,
          ["A1-6", "A2-6", "A3-6", "A4-6", "A5-6"],
          "OPERA_1_1970-01-01T00:01:00+00:00"⟩ : S1PairRow).reference_acquisition) :=
  ⟨spec_C4.1 landsatTilesFx [landsatSecFx] landsatRefFx 47001600 60 _ (by decide),
   spec_C4.2.1 s2TilesFx [s2SecFx] s2RefFx 47001600 432000 70 _ (by decide) (by decide),
   spec_C4.2.2 s1cfgA 1
     [mkBurst "A1-0" "a1" 60, mkBurst "A2-0" "a2" 60, mkBurst "A3-0" "a3" 60,
      mkBurst "A4-0" "a4" 60, mkBurst "A5-0" "a5" 60, mkBurst "A1-6" "a1" (-518340),
      mkBurst "A2-6" "a2" (-518340), mkBurst "A3-6" "a3" (-518340),
      mkBurst "A4-6" "a4" (-518340), mkBurst "A5-6" "a5" (-518340)]
     [⟨["A1-0", "A2-0", "A3-0", "A4-0", "A5-0"], 60, ["A1-6", "A2-6", "A3-6", "A4-6", "A5-6"],
       "OPERA_1_1970-01-01T00:01:00+00:00"⟩]
     ⟨["A1-0", "A2-0", "A3-0", "A4-0", "A5-0"], 60, ["A1-6", "A2-6", "A3-6", "A4-6", "A5-6"],
       "OPERA_1_1970-01-01T00:01:00+00:00"⟩
     (by decide) (by decide)⟩

/-! ## C1: frame assembly fails fast on any incomplete member burst stack -/

theorem except_mapM_error {α β : Type} (f : α → Except String β) (l : List α)
    (h : ∃ x ∈ l, ∃ e, f x = .error e) : ∃ e, l.mapM f = .error e := by
  induction l with
  | nil => simp at h
  | cons a t ih =>
    rw [List.mapM_cons]
    rcases h with ⟨x, hx, e, hfx⟩
    rcases List.mem_cons.mp hx with rfl | hxt
    · refine ⟨e, ?_⟩
      rw [hfx]
      rfl
    · cases hfa : f a with
      | error e2 => exact ⟨e2, rfl⟩
      | ok b =>
        rcases ih ⟨x, hxt, e, hfx⟩ with ⟨e3, hmape⟩
        refine ⟨e3, ?_⟩
        rw [hmape]
        rfl

theorem burst_stack_checked_error (catalog : List BurstProduct) (reference : BurstProduct)
    (maxSep : ℤ) (burstId refBurstId : String)
    (h : stack_incomplete catalog reference maxSep burstId = true) :
    ∃ e, burst_stack_checked catalog reference.startTime
      ((pySplit reference.sceneName '_').getD 4 "")
      (reference.startTime - (maxSep * 86400 + 180)) (reference.startTime + 180)
      burstId refBurstId = .error e := by
  simp only [stack_incomplete, Bool.or_eq_true] at h
  unfold burst_stack_checked
  split
  · exact ⟨_, rfl⟩
  · rename_i s0 rest hstack
    rw [hstack] at h
    rcases h with (hempty | hold) | hshort
    · exact absurd hempty (by simp)
    · have hs0 : s0.startTime ≤ reference.startTime - 180 :=
        of_decide_eq_true (List.all_eq_true.mp hold s0 (by simp))
      rw [if_pos (not_lt.mpr hs0)]
      exact ⟨_, rfl⟩
    · by_cases hhead : reference.startTime - 180 < s0.startTime
      · rw [if_neg (not_not_intro hhead), if_pos (of_decide_eq_true hshort)]
        exact ⟨_, rfl⟩
      · rw [if_pos hhead]
        exact ⟨_, rfl⟩

/-- C1.  Frame assembly raises rather than silently dropping the frame: if,
for any member burst id of any candidate frame of the reference burst, the
catalog search over the `[ref - max_separation - 3 min, ref + 3 min]` window
returns zero results, or no returned result lands within the 3-minute
tolerance of the reference time, or the stack has fewer than 2 entries, then
`get_frame_stacks` returns an error. -/
theorem spec_C1 (frameBursts : ℕ → List String) (burstFrames : String → List ℕ)
    (catalog : List BurstProduct) (reference : BurstProduct) (maxSep : ℤ)
    (h : ∃ frameId ∈ burstFrames reference.fullBurstID, ∃ b ∈ frameBursts frameId,
      stack_incomplete catalog reference maxSep b = true) :
    ∃ e, get_frame_stacks frameBursts burstFrames catalog reference maxSep = .error e := by
  rcases h with ⟨fid, hfid, b, hb, hinc⟩
  have hframe : ∃ e, frame_stack_rows frameBursts catalog reference.startTime
      ((pySplit reference.sceneName '_').getD 4 "")
      (reference.startTime - (maxSep * 86400 + 180)) (reference.startTime + 180)
      reference.fullBurstID fid = .error e := by
    unfold frame_stack_rows
    by_cases hvac : (frameBursts fid).isEmpty
    · rw [if_pos hvac]
      exact ⟨_, rfl⟩
    · rw [if_neg hvac]
      rcases except_mapM_error
          (fun bb => burst_stack_checked catalog reference.startTime
            ((pySplit reference.sceneName '_').getD 4 "")
            (reference.startTime - (maxSep * 86400 + 180)) (reference.startTime + 180)
            bb reference.fullBurstID)
          (frameBursts fid)
          ⟨b, hb, burst_stack_checked_error catalog reference maxSep b
            reference.fullBurstID hinc⟩ with ⟨e, he⟩
      refine ⟨e, ?_⟩
      rw [he]
      rfl
  simp only [get_frame_stacks]
  rw [if_neg (by simp only [List.isEmpty_iff]; exact List.ne_nil_of_mem hfid)]
  rcases except_mapM_error
      (frame_stack_rows frameBursts catalog reference.startTime
        ((pySplit reference.sceneName '_').getD 4 "")
        (reference.startTime - (maxSep * 86400 + 180)) (reference.startTime + 180)
        reference.fullBurstID)
      (burstFrames reference.fullBurstID) ⟨fid, hfid, hframe⟩ with ⟨e2, he2⟩
  refine ⟨e2, ?_⟩
  rw [he2]
  rfl

/-- C1 (witness): with an empty catalog, the single member burst of the
reference burst's frame has an empty stack and `get_frame_stacks` errors. -/
theorem spec_C1_witness :
    ∃ e, get_frame_stacks w1cfg w1frames [] ⟨"S1_x_x_x_VV_x", "b1", "VV", 60⟩ 12 = .error e :=
  spec_C1 w1cfg w1frames [] ⟨"S1_x_x_x_VV_x", "b1", "VV", 60⟩ 12
    ⟨1, by decide, "b1", by decide, by decide⟩

/-! ## C7: point_to_region -/

/-- C7.  `point_to_region` is total on the valid coordinate range and
produces the label `{N|S}{2-digit lat}{E|W}{3-digit lon}` where the
hemisphere letters come from the IEEE sign bit, the magnitude is truncated
toward zero to the lower multiple of 10, latitude 90 is clamped to the 80
bin and longitude 180 to the 170 bin; in particular
`point_to_region(63, 128) = "N60E120"` and
`point_to_region(-0.0, 0.0) = "S00E000"`. -/
theorem spec_C7 :
    (∀ lat lon : PyFloat, 0 ≤ lat.mag → lat.mag ≤ 90 → 0 ≤ lon.mag → lon.mag ≤ 180 →
      point_to_region lat lon =
        regionLabelSpec lat.sign (regionBucketSpec lat.mag 80)
          lon.sign (regionBucketSpec lon.mag 170)) ∧
    point_to_region (PyFloat.ofRat 63) (PyFloat.ofRat 128) = "N60E120" ∧
    point_to_region ⟨true, 0⟩ (PyFloat.ofRat 0) = "S00E000" := by
  refine ⟨?_, by decide, by decide⟩
  intro lat lon hla0 hla90 hlo0 hlo180
  have hlatk0 : 0 ≤ ⌊lat.mag / 10⌋ := Int.floor_nonneg.mpr (by positivity)
  have hlatk9 : ⌊lat.mag / 10⌋ ≤ 9 := by
    have h1 : lat.mag / 10 ≤ (9 : ℚ) := by linarith
    have h2 := Int.floor_le_floor h1
    simpa using h2
  have hlonk0 : 0 ≤ ⌊lon.mag / 10⌋ := Int.floor_nonneg.mpr (by positivity)
  have hlonk18 : ⌊lon.mag / 10⌋ ≤ 18 := by
    have h1 : lon.mag / 10 ≤ (18 : ℚ) := by linarith
    have h2 := Int.floor_le_floor h1
    simpa using h2
  have hlat : (if (10 * ⌊lat.mag / 10⌋).toNat = 90 then 80
      else (10 * ⌊lat.mag / 10⌋).toNat) = min ((10 * ⌊lat.mag / 10⌋).toNat) 80 := by
    split_ifs <;> omega
  have hlon : (if 180 ≤ (10 * ⌊lon.mag / 10⌋).toNat then 170
      else (10 * ⌊lon.mag / 10⌋).toNat) = min ((10 * ⌊lon.mag / 10⌋).toNat) 170 := by
    split_ifs <;> omega
  simp only [point_to_region, regionLabelSpec, regionBucketSpec, ratFloorDiv10_eq]
  rw [hlat, hlon]

/-- C7 (witness): the general label characterization applied at the
concrete point (63, 128). -/
theorem spec_C7_witness :
    point_to_region (PyFloat.ofRat 63) (PyFloat.ofRat 128) =
      regionLabelSpec (PyFloat.ofRat 63).sign (regionBucketSpec (PyFloat.ofRat 63).mag 80)
        (PyFloat.ofRat 128).sign (regionBucketSpec (PyFloat.ofRat 128).mag 170) :=
  spec_C7.1 (PyFloat.ofRat 63) (PyFloat.ofRat 128) (by decide) (by decide) (by decide) (by decide)

/-! ## C8: regions_from_bounds covers every 10°-aligned grid point -/

theorem ceil_div10_scaled (u : ℚ) :
    u ≤ (⌈u / 10⌉ : ℚ) * 10 ∧ (⌈u / 10⌉ : ℚ) * 10 < u + 10 := by
  constructor
  · have h2 : u / 10 ≤ (⌈u / 10⌉ : ℚ) := Int.le_ceil _
    have h3 := mul_le_mul_of_nonneg_right h2 (by norm_num : (0:ℚ) ≤ 10)
    rwa [div_mul_cancel₀ u (by norm_num : (10:ℚ) ≠ 0)] at h3
  · have h2 : (⌈u / 10⌉ : ℚ) < u / 10 + 1 := by exact_mod_cast Int.ceil_lt_add_one (u / 10)
    have h3 := mul_lt_mul_of_pos_right h2 (by norm_num : (0:ℚ) < 10)
    rw [add_mul, div_mul_cancel₀ u (by norm_num : (10:ℚ) ≠ 0)] at h3
    linarith

theorem floor_div10_scaled (u : ℚ) :
    (⌊u / 10⌋ : ℚ) * 10 ≤ u ∧ u - 10 < (⌊u / 10⌋ : ℚ) * 10 := by
  constructor
  · have h2 : (⌊u / 10⌋ : ℚ) ≤ u / 10 := Int.floor_le _
    have h3 := mul_le_mul_of_nonneg_right h2 (by norm_num : (0:ℚ) ≤ 10)
    rwa [div_mul_cancel₀ u (by norm_num : (10:ℚ) ≠ 0)] at h3
  · have h2 : u / 10 < (⌊u / 10⌋ : ℚ) + 1 := Int.lt_floor_add_one _
    have h3 := mul_lt_mul_of_pos_right h2 (by norm_num : (0:ℚ) < 10)
    rw [add_mul, div_mul_cancel₀ u (by norm_num : (10:ℚ) ≠ 0)] at h3
    linarith

theorem mem_arange (a b : ℚ) (k : ℕ) (hk : (k : ℤ) < max 0 (arangeCount a b)) :
    qAddMul10 a k ∈ arange a b := by
  unfold arange
  exact List.mem_map.mpr ⟨k, List.mem_range.mpr (by omega), rfl⟩

/-- Every 10°-aligned value `10 * i` inside `[a, b]` has an `np.arange`
point in its own sign/bucket cell. -/
theorem arange_covers (a b : ℚ) (i : ℤ) (hag : a ≤ 10 * i) (hgb : (10 * (i:ℚ)) ≤ b) :
    ∃ x ∈ arange a (qAddMul10 b 1),
      decide (x < 0) = decide ((10 * (i:ℚ)) < 0) ∧
      ⌊pyAbs x / 10⌋ = ⌊pyAbs (10 * (i:ℚ)) / 10⌋ := by
  have hcnt : arangeCount a (qAddMul10 b 1) = ⌈(b - a) / 10⌉ + 1 := by
    rw [arangeCount_eq, qAddMul10_eq]
    push_cast
    rw [show (b + 10 * (1:ℚ) - a) / 10 = (b - a) / 10 + 1 by ring]
    exact_mod_cast Int.ceil_add_one ((b - a) / 10)
  rcases le_or_lt 0 i with hi | hi
  · -- nonnegative grid value: take the first arange point at or above it
    have hiq : (0:ℚ) ≤ (i:ℚ) := by exact_mod_cast hi
    obtain ⟨k, hk0, hb1, hb2, hkle⟩ :
        ∃ k : ℤ, 0 ≤ k ∧ 10 * (i:ℚ) - a ≤ (k:ℚ) * 10 ∧ (k:ℚ) * 10 < 10 * (i:ℚ) - a + 10 ∧
          k ≤ ⌈(b - a) / 10⌉ := by
      refine ⟨⌈(10 * (i:ℚ) - a) / 10⌉,
        Int.ceil_nonneg (div_nonneg (by linarith) (by norm_num)),
        (ceil_div10_scaled (10 * (i:ℚ) - a)).1, (ceil_div10_scaled (10 * (i:ℚ) - a)).2,
        Int.ceil_le_ceil ?_⟩
      apply div_le_div_of_nonneg_right ?_ ?_ <;> first | linarith | norm_num
    have hmem := mem_arange a (qAddMul10 b 1) k.toNat (by omega)
    refine ⟨qAddMul10 a k.toNat, hmem, ?_, ?_⟩
    all_goals
      rw [qAddMul10_eq]
    all_goals
      have hcast : ((k.toNat : ℕ) : ℚ) = (k : ℚ) := by exact_mod_cast Int.toNat_of_nonneg hk0
      rw [hcast]
    · -- both values are nonnegative
      have hx0 : (0:ℚ) ≤ a + 10 * (k:ℚ) := by linarith
      have hg0 : (0:ℚ) ≤ 10 * (i:ℚ) := by linarith
      simp only [decide_eq_decide]
      constructor <;> intro h <;> linarith
    · have hx0 : (0:ℚ) ≤ a + 10 * (k:ℚ) := by linarith
      have hg0 : (0:ℚ) ≤ 10 * (i:ℚ) := by linarith
      rw [pyAbs, if_neg (not_lt.mpr hx0), pyAbs, if_neg (not_lt.mpr hg0)]
      have hgoal1 : ⌊(a + 10 * (k:ℚ)) / 10⌋ = i := by
        rw [Int.floor_eq_iff]
        constructor
        · rw [le_div_iff₀ (by norm_num : (0:ℚ) < 10)]
          linarith
        · rw [div_lt_iff₀ (by norm_num : (0:ℚ) < 10)]
          push_cast
          linarith
      have hgoal2 : ⌊(10 * (i:ℚ)) / 10⌋ = i := by
        rw [show (10 * (i:ℚ)) / 10 = (i:ℚ) by ring]
        exact Int.floor_intCast i
      rw [hgoal1, hgoal2]
  · -- negative grid value: take the last arange point at or below it
    have hiq : (i:ℚ) ≤ -1 := by
      have h1 : i ≤ -1 := by omega
      exact_mod_cast h1
    have hineg : (10 * (i:ℚ)) ≤ -10 := by linarith
    obtain ⟨k, hk0, hb1, hb2, hkle⟩ :
        ∃ k : ℤ, 0 ≤ k ∧ (k:ℚ) * 10 ≤ 10 * (i:ℚ) - a ∧ 10 * (i:ℚ) - a - 10 < (k:ℚ) * 10 ∧
          k ≤ ⌈(b - a) / 10⌉ := by
      refine ⟨⌊(10 * (i:ℚ) - a) / 10⌋,
        Int.floor_nonneg.mpr (div_nonneg (by linarith) (by norm_num)),
        (floor_div10_scaled (10 * (i:ℚ) - a)).1, (floor_div10_scaled (10 * (i:ℚ) - a)).2,
        le_trans (Int.floor_le_ceil _) (Int.ceil_le_ceil ?_)⟩
      apply div_le_div_of_nonneg_right ?_ ?_ <;> first | linarith | norm_num
    have hmem := mem_arange a (qAddMul10 b 1) k.toNat (by omega)
    refine ⟨qAddMul10 a k.toNat, hmem, ?_, ?_⟩
    all_goals
      rw [qAddMul10_eq]
    all_goals
      have hcast : ((k.toNat : ℕ) : ℚ) = (k : ℚ) := by exact_mod_cast Int.toNat_of_nonneg hk0
      rw [hcast]
    · have hx0 : a + 10 * (k:ℚ) < 0 := by linarith
      have hg0 : 10 * (i:ℚ) < 0 := by linarith
      simp only [decide_eq_decide]
      constructor <;> intro h <;> linarith
    · have hx0 : a + 10 * (k:ℚ) < 0 := by linarith
      have hg0 : 10 * (i:ℚ) < 0 := by linarith
      rw [pyAbs, if_pos hx0, pyAbs, if_pos hg0]
      have hgoal1 : ⌊(-(a + 10 * (k:ℚ))) / 10⌋ = -i := by
        rw [Int.floor_eq_iff]
        constructor
        · rw [le_div_iff₀ (by norm_num : (0:ℚ) < 10)]
          push_cast
          linarith
        · rw [div_lt_iff₀ (by norm_num : (0:ℚ) < 10)]
          push_cast
          linarith
      have hgoal2 : ⌊(-(10 * (i:ℚ))) / 10⌋ = -i := by
        rw [show (-(10 * (i:ℚ))) / 10 = ((-i : ℤ) : ℚ) by push_cast; ring]
        exact Int.floor_intCast (-i)
      rw [hgoal1, hgoal2]

theorem point_to_region_ofRat_congr (x y u v : ℚ)
    (hs1 : decide (x < 0) = decide (u < 0)) (hb1 : ⌊pyAbs x / 10⌋ = ⌊pyAbs u / 10⌋)
    (hs2 : decide (y < 0) = decide (v < 0)) (hb2 : ⌊pyAbs y / 10⌋ = ⌊pyAbs v / 10⌋) :
    point_to_region (PyFloat.ofRat x) (PyFloat.ofRat y) =
      point_to_region (PyFloat.ofRat u) (PyFloat.ofRat v) := by
  simp only [point_to_region, PyFloat.ofRat, ratFloorDiv10_eq]
  simp only [hs1, hb1, hs2, hb2]

/-- C8.  `regions_from_bounds` contains the region label of every
10°-aligned grid point covering the bounding box (upper edge inclusive),
and on the concrete box (-128, -63, -109, -54) it returns exactly the six
labels of the claim. -/
theorem spec_C8 :
    (∀ (minLon minLat maxLon maxLat : ℚ) (i j : ℤ),
      minLat ≤ 10 * i → (10 * (i:ℚ)) ≤ maxLat →
      minLon ≤ 10 * j → (10 * (j:ℚ)) ≤ maxLon →
      point_to_region (PyFloat.ofRat (10 * i)) (PyFloat.ofRat (10 * j)) ∈
        regions_from_bounds minLon minLat maxLon maxLat) ∧
    regions_from_bounds (-128) (-63) (-109) (-54) =
      {"S60W120", "S60W110", "S60W100", "S50W120", "S50W110", "S50W100"} := by
  refine ⟨?_, by decide⟩
  intro minLon minLat maxLon maxLat i j hlat1 hlat2 hlon1 hlon2
  rcases arange_covers minLat maxLat i hlat1 hlat2 with ⟨xla, hmla, hsla, hbla⟩
  rcases arange_covers minLon maxLon j hlon1 hlon2 with ⟨xlo, hmlo, hslo, hblo⟩
  have hlabel : point_to_region (PyFloat.ofRat (10 * i)) (PyFloat.ofRat (10 * j)) =
      point_to_region (PyFloat.ofRat xla) (PyFloat.ofRat xlo) :=
    (point_to_region_ofRat_congr xla xlo (10 * (i:ℚ)) (10 * (j:ℚ))
      hsla hbla hslo hblo).symm
  rw [hlabel, regions_from_bounds, List.mem_toFinset, regionsList, mem_uniqueFirst]
  exact List.mem_flatMap.mpr ⟨xla, hmla, List.mem_map.mpr ⟨xlo, hmlo, rfl⟩⟩

/-! ## C3: reference-group selection and quorum-failure semantics -/

/-- C3 (counterexample): on a midnight-straddling pass the most recent
acquisition-day group of the only frame is the single burst `B1-0`; that
day-group fails the quorum validation, and the whole request then fails with
`AssertionError` — the quorum failure of a day-group is not always
"simply excluded, not fatal". -/
theorem spec_C3_counterexample :
    Except.map (fun df => (dayGroups (df.map (fun r => r.product))).getLast?)
        (get_frame_stacks s1cfgB s1framesB s1catalogB s1refB 12) =
      .ok (some (0, [mkBurst "B1-0" "b1" 60])) ∧
    frame_qualifies_for_sentinel1_processing s1cfgB [mkBurst "B1-0" "b1" 60] 1 = false ∧
    get_sentinel1_pairs_for_reference_scene s1cfgB s1framesB s1catalogB s1refB 12 =
      .error "AssertionError" := by
  refine ⟨by decide, by decide, by decide⟩

/-- C3 (amended).  For every frame, pair generation selects the most recent
acquisition-day group as the reference group and emits one pair per earlier
qualifying day-group, with job name `OPERA_{frame_id}_{reference_date}`; an
earlier (secondary) day-group that fails the quorum validation is simply
excluded from the output, but the reference day-group failing it is fatal
for the whole request (`AssertionError`).  End-to-end, with two frames — one
with a complete quorum on its secondary day and one with only 4 matching
bursts there — exactly one frame contributes pairs. -/
theorem spec_C3_amended :
    (∀ (frameBursts : ℕ → List String) (frameId : ℕ) (rows : List BurstProduct)
        (g0 : ℤ × List BurstProduct),
      (dayGroups rows).getLast? = some g0 →
      frame_qualifies_for_sentinel1_processing frameBursts g0.2 frameId = true →
      frame_pairs frameBursts frameId rows =
        .ok ((dayGroups rows).dropLast.filterMap (fun g =>
          if frame_qualifies_for_sentinel1_processing frameBursts g.2 frameId then
            some ⟨g0.2.map (fun p => p.sceneName),
                  listMinD (g0.2.map (fun p => p.startTime)) 0,
                  g.2.map (fun p => p.sceneName),
                  "OPERA_" ++ toString frameId ++ "_" ++
                    isoUTC (listMinD (g0.2.map (fun p => p.startTime)) 0)⟩
          else none))) ∧
    (∀ (frameBursts : ℕ → List String) (frameId : ℕ) (rows : List BurstProduct)
        (g0 : ℤ × List BurstProduct),
      (dayGroups rows).getLast? = some g0 →
      frame_qualifies_for_sentinel1_processing frameBursts g0.2 frameId = false →
      frame_pairs frameBursts frameId rows = .error "AssertionError") ∧
    get_sentinel1_pairs_for_reference_scene s1cfgA s1framesA s1catalogA s1refA 12 =
      .ok ⟨["reference", "reference_acquisition", "secondary", "job_name"],
        [⟨["A1-0", "A2-0", "A3-0", "A4-0", "A5-0"], 60,
          ["A1-6", "A2-6", "A3-6", "A4-6", "A5-6"],
          "OPERA_1_1970-01-01T00:01:00+00:00"⟩]⟩ := by
  refine ⟨?_, ?_, by decide⟩
  · intro frameBursts frameId rows g0 hlast hq
    simp only [frame_pairs, hlast]
    rw [if_neg (not_not_intro hq)]
  · intro frameBursts frameId rows g0 hlast hq
    simp only [frame_pairs, hlast]
    simp [hq]

/-- C3 (witness): the frame-1 rows of the two-frame fixture have the
reference-day group as their most recent day-group, it qualifies, and pair
generation emits the earlier qualifying day-groups. -/
theorem spec_C3_witness :
    (dayGroups s1rowsA1).getLast? = some (0, s1refGroupA1) ∧
    frame_qualifies_for_sentinel1_processing s1cfgA s1refGroupA1 1 = true ∧
    frame_pairs s1cfgA 1 s1rowsA1 =
      .ok ((dayGroups s1rowsA1).dropLast.filterMap (fun g =>
        if frame_qualifies_for_sentinel1_processing s1cfgA g.2 1 then
          some ⟨s1refGroupA1.map (fun p => p.sceneName),
                listMinD (s1refGroupA1.map (fun p => p.startTime)) 0,
                g.2.map (fun p => p.sceneName),
                "OPERA_" ++ toString (1 : ℕ) ++ "_" ++
                  isoUTC (listMinD (s1refGroupA1.map (fun p => p.startTime)) 0)⟩
        else none)) :=
  ⟨by decide, by decide,
    spec_C3_amended.1 s1cfgA 1 s1rowsA1 (0, s1refGroupA1) (by decide) (by decide)⟩

/-- C8 (witness): the aligned grid point (-60, -120) of the concrete box is
covered. -/
theorem spec_C8_witness :
    point_to_region (PyFloat.ofRat (10 * (-6 : ℤ))) (PyFloat.ofRat (10 * (-12 : ℤ))) ∈
      regions_from_bounds (-128) (-63) (-109) (-54) :=
  spec_C8.1 (-128) (-63) (-109) (-54) (-6) (-12)
    (by norm_num) (by norm_num) (by norm_num) (by norm_num)

end ItsLive
